import Mathlib

/-!
# PingSerial: a shallow embedding of the US-100 serial driver

The development follows `src/PingSerial.h` and `src/PingSerial.cpp`.

* The private members of `class PingSerial` become the fields of the structure
  `PingSerial`, with the member names of the header.
* The Arduino stream the driver talks to (`HardwareSerial` / `SoftwareSerial`,
  not part of the repository) is the structure `Port`: the bytes waiting in the
  receive buffer and the bytes written so far.
* `millis()` is an `unsigned long`, 32 bits wide on the Arduino targets: the
  clock argument `now` of the entry points is the time since start in
  milliseconds and `millis now = now % 2^32` is what the code reads.  One clock
  reading is used for all the `millis()` calls of a single entry-point call.
* `uint16_t` and `byte` values are natural numbers, reduced `% 65536` and
  `% 256` where the code narrows a wider value.
-/

namespace PingSerial

/-! ## The byte transport (Arduino `Stream`), external to the repository -/

/-- The serial port seen from the driver: `rx` holds the bytes received and not
yet read (oldest first), `tx` the bytes written so far (oldest first). -/
structure Port where
  rx : List Nat
  tx : List Nat
deriving DecidableEq, Repr

/-- Model of `Stream::available()`: how many bytes wait in the receive buffer. -/
def Port.available (p : Port) : Nat := p.rx.length

/-- Model of `Stream::read()`: the oldest byte waiting, removed from the buffer,
or `-1` when nothing waits. -/
def Port.read (p : Port) : Int × Port :=
  match p.rx with
  | [] => (-1, p)
  | b :: rest => ((b : Int), { p with rx := rest })

/-- Model of `Stream::write(b)`: the byte is appended to what was sent. -/
def Port.write (b : Nat) (p : Port) : Port := { p with tx := p.tx ++ [b] }

/-- Model of the sensor side of the line: `bytes` arrive in the receive buffer. -/
def Port.receive (bytes : List Nat) (p : Port) : Port := { p with rx := p.rx ++ bytes }

end PingSerial

/-! ## The driver object -/

/-- The members of `class PingSerial` (PingSerial.h, lines 97-129).  `serial`
is the port behind `_hw_serial` / `_sw_serial` (exactly one of them is set). -/
structure PingSerial where
  serial : PingSerial.Port
  _op_started : Nat
  _max_op_duration_ms : Nat
  _op_timeout_ms : Nat
  _timeout_count : Nat
  _distance : Nat
  _temperature : Int
  _min_mm_distance : Nat
  _max_mm_distance : Nat
  _distance_pending : Bool
  _temperature_pending : Bool
  _distance_avail : Bool
  _temperature_avail : Bool
  _distance_request_queued : Bool
  _temperature_request_queued : Bool
deriving DecidableEq, Repr

namespace PingSerial

/-- Flag of `data_available()` for a stored distance (`#define DISTANCE 0x1`). -/
def DISTANCE : Nat := 1

/-- Flag of `data_available()` for a stored temperature (`#define TEMPERATURE 0x2`). -/
def TEMPERATURE : Nat := 2

/-- The constant `UINT16_MAX` of `stdint.h`. -/
def UINT16_MAX : Nat := 65535

/-- The value `millis()` returns at time `now` (milliseconds since start): an
`unsigned long` of 32 bits, so the reading wraps every `2^32` ms. -/
def millis (now : Nat) : Nat := now % 4294967296

/-- The macro `OPERATION_PENDING` (PingSerial.cpp, line 9). -/
def OPERATION_PENDING (s : PingSerial) : Bool :=
  s._distance_pending || s._temperature_pending

/-- The member initialisers of the header (PingSerial.h, lines 106-129) for an
object attached to `serialport`. -/
def defaults (serialport : Port) : PingSerial :=
  { serial := serialport
    _op_started := 0
    _max_op_duration_ms := 0
    _op_timeout_ms := 0
    _timeout_count := 0
    _distance := 0
    _temperature := 0
    _min_mm_distance := 0
    _max_mm_distance := UINT16_MAX
    _distance_pending := false
    _temperature_pending := false
    _distance_avail := false
    _temperature_avail := false
    _distance_request_queued := false
    _temperature_request_queued := false }

/-- The condition of the `if` in `Init` (PingSerial.cpp, line 33) that guards the
"Screwy min/max distance passed" diagnostic.  It compares the member
`_min_mm_distance`, as the source does. -/
def Init_screwy (s : PingSerial) (max_mm_distance : Nat) : Bool :=
  decide (s._min_mm_distance ≥ max_mm_distance)

/-- The function `PingSerial::Init` (PingSerial.cpp, lines 11-41).  The debug
prints do not change the object; the branch that makes them is `Init_screwy`. -/
def Init (min_mm_distance max_mm_distance : Nat) (s : PingSerial) : PingSerial :=
  let s1 : PingSerial := { s with _op_timeout_ms := 99 }
  { s1 with
    _min_mm_distance := min min_mm_distance max_mm_distance
    _max_mm_distance := max max_mm_distance min_mm_distance }

/-- The constructor `PingSerial::PingSerial(serialport, min, max)`
(PingSerial.cpp, lines 43-49): member initialisers, then `Init`. -/
def new (serialport : Port) (min_mm_distance max_mm_distance : Nat) : PingSerial :=
  Init min_mm_distance max_mm_distance (defaults serialport)

/-- The discarding loop of `read` (PingSerial.cpp, lines 80-82): `count` calls
of the port's `read()`, results dropped. -/
def read_discard : Nat → PingSerial → PingSerial
  | 0, s => s
  | n + 1, s => read_discard n { s with serial := s.serial.read.2 }

/-- The function `PingSerial::read(count)` (PingSerial.cpp, lines 69-95): one
byte is returned when `count` is 1, otherwise `count` bytes are read and
dropped and 0 is returned. -/
def read (count : Nat) (s : PingSerial) : Int × PingSerial :=
  if count = 1 then
    (s.serial.read.1, { s with serial := s.serial.read.2 })
  else
    (0, read_discard count s)

/-- The function `PingSerial::write(b)` (PingSerial.cpp, lines 97-105); the
number of bytes written that it returns is ignored by every caller. -/
def write (b : Nat) (s : PingSerial) : PingSerial :=
  { s with serial := s.serial.write b }

/-- The function `PingSerial::request_distance` (PingSerial.cpp, lines 251-261). -/
def request_distance (now : Nat) (s : PingSerial) : PingSerial :=
  if OPERATION_PENDING s then
    { s with _distance_request_queued := true }
  else
    let s1 := write 0x55 s
    let s2 : PingSerial := { s1 with _distance_pending := true }
    { s2 with _op_started := millis now }

/-- The function `PingSerial::request_temperature` (PingSerial.cpp, lines 263-273). -/
def request_temperature (now : Nat) (s : PingSerial) : PingSerial :=
  if OPERATION_PENDING s then
    { s with _temperature_request_queued := true }
  else
    let s1 := write 0x50 s
    let s2 : PingSerial := { s1 with _temperature_pending := true }
    { s2 with _op_started := millis now }

/-- First part of `data_available` (PingSerial.cpp, lines 139-147): with no byte
waiting and nothing pending, one queued request is sent, distance first. -/
def data_available_queued (now available : Nat) (s : PingSerial) : PingSerial :=
  if available = 0 ∧ OPERATION_PENDING s = false then
    if s._distance_request_queued then
      request_distance now { s with _distance_request_queued := false }
    else if s._temperature_request_queued then
      request_temperature now { s with _temperature_request_queued := false }
    else s
  else s

/-- The valid-distance branch of `data_available` (PingSerial.cpp, lines
161-170).  `millis() - _op_started` is a 32-bit difference and the maximum is
narrowed to the 16-bit `_max_op_duration_ms`; the two `read()` calls of line
163 run left to right (first byte times 256, plus second byte), the sum is
taken in `int` arithmetic and narrowed to the 16-bit `_distance`. -/
def data_available_distance (now : Nat) (s : PingSerial) : PingSerial :=
  let elapsed := (((millis now : Int) - (s._op_started : Int)) % 4294967296).toNat
  let s1 : PingSerial :=
    { s with _max_op_duration_ms := (max elapsed s._max_op_duration_ms) % 65536 }
  let r1 := read 1 s1
  let r2 := read 1 r1.2
  let s2 : PingSerial := { r2.2 with _distance := ((r1.1 * 256 + r2.1) % 65536).toNat }
  let s3 : PingSerial := { s2 with _distance_pending := false }
  let s4 : PingSerial := { s3 with _distance_avail := true }
  if s4._distance > s4._max_mm_distance then
    { s4 with _distance := UINT16_MAX }
  else if s4._distance < s4._min_mm_distance then
    { s4 with _distance := 0 }
  else s4

/-- Second part of `data_available` (PingSerial.cpp, lines 149-187): the bytes
waiting are matched against the pending request. -/
def data_available_rx (now available : Nat) (s : PingSerial) : PingSerial :=
  if available ≠ 0 then
    if s._distance_pending then
      if available < 2 then s
      else if available > 2 then
        let s1 := (read available s).2
        request_distance now { s1 with _distance_pending := false }
      else
        data_available_distance now s
    else if s._temperature_pending then
      if available > 1 then
        let s1 := (read available s).2
        request_temperature now { s1 with _temperature_pending := false }
      else
        let r := read 1 s
        let s1 : PingSerial := { r.2 with _temperature := r.1 - 45 }
        let s2 : PingSerial := { s1 with _temperature_pending := false }
        { s2 with _temperature_avail := true }
    else s
  else s

/-- Third part of `data_available` (PingSerial.cpp, lines 189-216): the timeout
test with its 32-bit sum, the 16-bit counter with floor 1, the flush of what
waits in the port and the retry of the pending request. -/
def data_available_timeout (now : Nat) (s : PingSerial) : PingSerial :=
  if OPERATION_PENDING s = true ∧
      millis now > (s._op_started + s._op_timeout_ms) % 4294967296 then
    let s1 : PingSerial := { s with _timeout_count := (s._timeout_count + 1) % 65536 }
    let s2 : PingSerial := { s1 with _timeout_count := max s1._timeout_count 1 }
    let available := s2.serial.available % 256
    let s3 := (read available s2).2
    if s3._distance_pending then
      request_distance now { s3 with _distance_pending := false }
    else
      request_temperature now { s3 with _temperature_pending := false }
  else s

/-- Last part of `data_available` (PingSerial.cpp, lines 218-226): the mask of
the values that are stored and not yet fetched. -/
def data_available_retval (s : PingSerial) : Nat :=
  let retval := 0
  let retval := if s._distance_avail then retval ||| DISTANCE else retval
  let retval := if s._temperature_avail then retval ||| TEMPERATURE else retval
  retval

/-- The function `PingSerial::data_available` (PingSerial.cpp, lines 118-227).
The local `available` is a `byte`: the count of the port is narrowed `% 256`
and is read once, before the first part. -/
def data_available (now : Nat) (s : PingSerial) : Nat × PingSerial :=
  let available := s.serial.available % 256
  let s1 := data_available_queued now available s
  let s2 := data_available_rx now available s1
  let s3 := data_available_timeout now s2
  (data_available_retval s3, s3)

/-- The function `PingSerial::get_distance` (PingSerial.cpp, lines 229-238). -/
def get_distance (s : PingSerial) : Nat × PingSerial :=
  if s._distance_avail then
    (s._distance, { s with _distance_avail := false })
  else
    (0, s)

/-- The function `PingSerial::get_temperature` (PingSerial.cpp, lines 240-249). -/
def get_temperature (s : PingSerial) : Int × PingSerial :=
  if s._temperature_avail then
    (s._temperature, { s with _temperature_avail := false })
  else
    (0, s)

/-- The function `PingSerial::display_debugging` (PingSerial.cpp, lines 275-288):
the prints leave the object alone, `clear` resets the two counters. -/
def display_debugging (clear : Bool) (s : PingSerial) : PingSerial :=
  if clear then
    let s1 : PingSerial := { s with _max_op_duration_ms := 0 }
    { s1 with _timeout_count := 0 }
  else s

/-! ## Call sequences -/

/-- One event in the life of a driver object: a call of the public interface
made by the sketch, or bytes arriving from the sensor. -/
inductive Call where
  | request_distance (now : Nat)
  | request_temperature (now : Nat)
  | data_available (now : Nat)
  | get_distance
  | get_temperature
  | display_debugging (clear : Bool)
  | receive (bytes : List Nat)
deriving DecidableEq, Repr

/-- The object after one event. -/
def Call.apply : Call → PingSerial → PingSerial
  | .request_distance now, s => PingSerial.request_distance now s
  | .request_temperature now, s => PingSerial.request_temperature now s
  | .data_available now, s => (PingSerial.data_available now s).2
  | .get_distance, s => (PingSerial.get_distance s).2
  | .get_temperature, s => (PingSerial.get_temperature s).2
  | .display_debugging clear, s => PingSerial.display_debugging clear s
  | .receive bytes, s => { s with serial := s.serial.receive bytes }

/-- The object after a sequence of events, first event first. -/
def run : List Call → PingSerial → PingSerial
  | [], s => s
  | c :: cs, s => run cs (c.apply s)

/-- A state is reachable when some sequence of events leads to it from a newly
constructed object (any port contents, any constructor arguments). -/
def Reachable (s : PingSerial) : Prop :=
  ∃ (port : Port) (lo hi : Nat) (calls : List Call), s = run calls (new port lo hi)

/-- At most one of the two requests is pending. -/
def Exclusive (s : PingSerial) : Prop :=
  ¬ (s._distance_pending = true ∧ s._temperature_pending = true)

/-- The condition of the timeout `if` of `data_available` (PingSerial.cpp, line
189) as the call started in state `s` at clock time `now` evaluates it, that
is after the first two parts of the call have run: the poll detects a
timeout exactly when it holds. -/
def data_available_timed_out (now : Nat) (s : PingSerial) : Bool :=
  let available := s.serial.available % 256
  let s2 := data_available_rx now available (data_available_queued now available s)
  decide (OPERATION_PENDING s2 = true ∧
    millis now > (s2._op_started + s2._op_timeout_ms) % 4294967296)

/-- The states in which a distance request is pending, a temperature request
is queued behind it, no byte waits, and 0x50 has not been written. -/
def TemperatureWaits (s : PingSerial) : Prop :=
  s._distance_pending = true ∧ s._temperature_pending = false
    ∧ s._temperature_request_queued = true ∧ s.serial.rx = [] ∧ 0x50 ∉ s.serial.tx

end PingSerial

namespace PingSerial

/-! ## Auxiliary facts about the port and `read` -/

theorem read_discard_eq (n : Nat) (s : PingSerial) :
    read_discard n s = { s with serial := { s.serial with rx := s.serial.rx.drop n } } := by
  induction n generalizing s with
  | zero => simp [read_discard]
  | succ k ih =>
    rw [read_discard, ih]
    cases s with
    | mk serial a b c d e f g h i j k l m n =>
      cases serial with
      | mk rx tx =>
        cases rx <;> simp [Port.read]

theorem read_snd (n : Nat) (s : PingSerial) :
    (read n s).2 = { s with serial := { s.serial with rx := s.serial.rx.drop n } } := by
  unfold read
  split
  · next h =>
    subst h
    cases s with
    | mk serial a b c d e f g h i j k l m n =>
      cases serial with
      | mk rx tx =>
        cases rx <;> simp [Port.read]
  · exact read_discard_eq n s

theorem read_one_fst (s : PingSerial) :
    (read 1 s).1 = (match s.serial.rx with
      | [] => -1
      | b :: _ => (b : Int)) := by
  cases s with
  | mk serial a b c d e f g h i j k l m n =>
    cases serial with
    | mk rx tx =>
      cases rx <;> simp [read, Port.read]

theorem decode_two_bytes (h l : Nat) (hh : h < 256) (hl : l < 256) :
    (((h : Int) * 256 + (l : Int)) % 65536).toNat = h * 256 + l := by
  omega

end PingSerial

namespace PingSerial

/-! ## Auxiliary facts about the parts of `data_available` -/

theorem queued_skip (now available : Nat) (s : PingSerial)
    (h : available ≠ 0 ∨ OPERATION_PENDING s = true) :
    data_available_queued now available s = s := by
  unfold data_available_queued
  rw [if_neg]
  rintro ⟨h0, hp⟩
  rcases h with h | h
  · exact h h0
  · rw [hp] at h; exact Bool.noConfusion h

theorem timeout_skip (now : Nat) (s : PingSerial) (h : OPERATION_PENDING s = false) :
    data_available_timeout now s = s := by
  unfold data_available_timeout
  rw [if_neg]
  rintro ⟨hp, _⟩
  rw [h] at hp; exact Bool.noConfusion hp

theorem rx_valid_distance (now available : Nat) (s : PingSerial)
    (ha : available = 2) (hp : s._distance_pending = true) :
    data_available_rx now available s = data_available_distance now s := by
  subst ha
  simp [data_available_rx, hp]

theorem distance_eq (now : Nat) (s : PingSerial) (h l : Nat) (rest : List Nat)
    (hh : h < 256) (hl : l < 256) (hrx : s.serial.rx = h :: l :: rest) :
    data_available_distance now s =
      { s with
        serial := { s.serial with rx := rest }
        _max_op_duration_ms :=
          (max (((millis now : Int) - (s._op_started : Int)) % 4294967296).toNat
            s._max_op_duration_ms) % 65536
        _distance :=
          if h * 256 + l > s._max_mm_distance then 65535
          else if h * 256 + l < s._min_mm_distance then 0
          else h * 256 + l
        _distance_pending := false
        _distance_avail := true } := by
  have hd := decode_two_bytes h l hh hl
  unfold data_available_distance
  simp only [read_snd, read_one_fst, hrx, List.drop_succ_cons, List.drop_zero, hd, UINT16_MAX]
  split
  · rfl
  · split <;> rfl

theorem poll_valid_distance (now : Nat) (s : PingSerial) (h l : Nat) (rest : List Nat)
    (hh : h < 256) (hl : l < 256) (hrx : s.serial.rx = h :: l :: rest)
    (hav : s.serial.available % 256 = 2)
    (hp : s._distance_pending = true) (ht : s._temperature_pending = false) :
    data_available now s =
      (data_available_retval (data_available_distance now s), data_available_distance now s) := by
  unfold data_available
  simp only [hav]
  rw [queued_skip now 2 s (Or.inl (by decide)), rx_valid_distance now 2 s rfl hp,
    timeout_skip]
  rw [distance_eq now s h l rest hh hl hrx]
  simp [OPERATION_PENDING, ht]

theorem retval_eq (s : PingSerial) :
    data_available_retval s =
      (if s._distance_avail then 1 else 0) + (if s._temperature_avail then 2 else 0) := by
  unfold data_available_retval
  cases s._distance_avail <;> cases s._temperature_avail <;> decide

end PingSerial

namespace PingSerial

/-- C1: from a newly constructed idle object, `request_distance` followed by a
`data_available` that finds exactly the two bytes `h`, `l` reports the DISTANCE
bit, and `get_distance` then returns 65535 when `h*256+l` is above the stored
maximum, 0 when it is below the stored minimum and `h*256+l` otherwise, so
the value is 0, 65535 or inside the stored range. -/
theorem distance_response_decoded_and_clamped (lo hi t0 t1 h l : Nat)
    (hh : h < 256) (hl : l < 256) :
    (data_available t1 (run [.request_distance t0, .receive [h, l]] (new ⟨[], []⟩ lo hi))).1
        &&& DISTANCE = DISTANCE
    ∧ (get_distance (data_available t1
        (run [.request_distance t0, .receive [h, l]] (new ⟨[], []⟩ lo hi))).2).1
      = (if h * 256 + l > (new ⟨[], []⟩ lo hi)._max_mm_distance then 65535
         else if h * 256 + l < (new ⟨[], []⟩ lo hi)._min_mm_distance then 0
         else h * 256 + l)
    ∧ ((get_distance (data_available t1
          (run [.request_distance t0, .receive [h, l]] (new ⟨[], []⟩ lo hi))).2).1 = 0
       ∨ ((new ⟨[], []⟩ lo hi)._min_mm_distance
            ≤ (get_distance (data_available t1
                (run [.request_distance t0, .receive [h, l]] (new ⟨[], []⟩ lo hi))).2).1
          ∧ (get_distance (data_available t1
                (run [.request_distance t0, .receive [h, l]] (new ⟨[], []⟩ lo hi))).2).1
            ≤ (new ⟨[], []⟩ lo hi)._max_mm_distance)
       ∨ (get_distance (data_available t1
          (run [.request_distance t0, .receive [h, l]] (new ⟨[], []⟩ lo hi))).2).1 = 65535) := by
  have hs : run [.request_distance t0, .receive [h, l]] (new ⟨[], []⟩ lo hi) =
      { new ⟨[h, l], [0x55]⟩ lo hi with
        _distance_pending := true
        _op_started := millis t0 } := by
    simp [run, Call.apply, request_distance, OPERATION_PENDING, new, Init, defaults, write,
      Port.write, Port.receive]
  have hp := poll_valid_distance t1
    { new ⟨[h, l], [0x55]⟩ lo hi with _distance_pending := true, _op_started := millis t0 }
    h l [] hh hl rfl rfl rfl rfl
  rw [hs, hp, distance_eq t1 _ h l [] hh hl rfl]
  simp only [retval_eq, get_distance, new, Init, defaults]
  refine ⟨by simp [DISTANCE], ?_, ?_⟩
  · simp
  · simp only [if_true]
    split
    · right; right; rfl
    · split
      · left; rfl
      · right; left; constructor <;> omega

/-- C1, on the inputs of the specification: range (0, 500) with bytes
`[0x01, 0xF4]`. -/
theorem distance_response_decoded_and_clamped_witness :
    (0x01 < 256 ∧ 0xF4 < 256 ∧ 0x07 < 256 ∧ 0xD0 < 256)
    ∧ (get_distance (data_available 50
        (run [.request_distance 0, .receive [0x01, 0xF4]] (new ⟨[], []⟩ 0 500))).2).1 = 500
    ∧ (get_distance (data_available 50
        (run [.request_distance 0, .receive [0x07, 0xD0]] (new ⟨[], []⟩ 0 500))).2).1 = 65535 :=
  ⟨by decide,
    (distance_response_decoded_and_clamped 0 500 0 50 0x01 0xF4 (by decide) (by decide)).2.1.trans
      (by decide),
    (distance_response_decoded_and_clamped 0 500 0 50 0x07 0xD0 (by decide) (by decide)).2.1.trans
      (by decide)⟩

end PingSerial

namespace PingSerial

/-! ## At most one request is pending -/

theorem request_distance_exclusive (now : Nat) (s : PingSerial) (h : Exclusive s) :
    Exclusive (request_distance now s) := by
  unfold Exclusive request_distance OPERATION_PENDING at *
  cases hd : s._distance_pending <;> cases ht : s._temperature_pending <;>
    simp_all [write]

theorem request_temperature_exclusive (now : Nat) (s : PingSerial) (h : Exclusive s) :
    Exclusive (request_temperature now s) := by
  unfold Exclusive request_temperature OPERATION_PENDING at *
  cases hd : s._distance_pending <;> cases ht : s._temperature_pending <;>
    simp_all [write]

theorem queued_exclusive (now available : Nat) (s : PingSerial) (h : Exclusive s) :
    Exclusive (data_available_queued now available s) := by
  unfold data_available_queued
  split
  · split
    · exact request_distance_exclusive now _ h
    · split
      · exact request_temperature_exclusive now _ h
      · exact h
  · exact h

theorem distance_exclusive (now : Nat) (s : PingSerial) :
    Exclusive (data_available_distance now s) := by
  unfold data_available_distance Exclusive
  simp only []
  split
  · simp
  · split <;> simp

theorem rx_exclusive (now available : Nat) (s : PingSerial) (h : Exclusive s) :
    Exclusive (data_available_rx now available s) := by
  unfold data_available_rx
  split
  · split
    · split
      · exact h
      · split
        · apply request_distance_exclusive
          simp [Exclusive]
        · exact distance_exclusive now s
    · split
      · split
        · apply request_temperature_exclusive
          simp [Exclusive]
        · simp [Exclusive]
      · exact h
  · exact h

theorem timeout_exclusive (now : Nat) (s : PingSerial) (h : Exclusive s) :
    Exclusive (data_available_timeout now s) := by
  unfold data_available_timeout
  split
  · simp only []
    split
    · apply request_distance_exclusive
      simp [Exclusive]
    · apply request_temperature_exclusive
      simp [Exclusive]
  · exact h

theorem data_available_exclusive (now : Nat) (s : PingSerial) (h : Exclusive s) :
    Exclusive (data_available now s).2 := by
  unfold data_available
  exact timeout_exclusive now _ (rx_exclusive now _ _ (queued_exclusive now _ s h))

theorem apply_exclusive (c : Call) (s : PingSerial) (h : Exclusive s) :
    Exclusive (c.apply s) := by
  cases c with
  | request_distance now => exact request_distance_exclusive now s h
  | request_temperature now => exact request_temperature_exclusive now s h
  | data_available now => exact data_available_exclusive now s h
  | get_distance =>
    show Exclusive (get_distance s).2
    unfold get_distance
    split <;> exact h
  | get_temperature =>
    show Exclusive (get_temperature s).2
    unfold get_temperature
    split <;> exact h
  | display_debugging clear =>
    show Exclusive (display_debugging clear s)
    unfold display_debugging
    split <;> exact h
  | receive bytes => exact h

theorem run_exclusive (calls : List Call) (s : PingSerial) (h : Exclusive s) :
    Exclusive (run calls s) := by
  induction calls generalizing s with
  | nil => exact h
  | cons c cs ih => exact ih _ (apply_exclusive c s h)

theorem new_exclusive (port : Port) (lo hi : Nat) : Exclusive (new port lo hi) := by
  simp [Exclusive, new, Init, defaults]

/-- C2: in every state reachable from a newly constructed object by requests,
polls (any bytes received, any clock readings) and getters, the distance and
the temperature request are not both pending. -/
theorem at_most_one_pending (s : PingSerial) (h : Reachable s) :
    ¬ (s._distance_pending = true ∧ s._temperature_pending = true) := by
  obtain ⟨port, lo, hi, calls, rfl⟩ := h
  exact run_exclusive calls _ (new_exclusive port lo hi)

/-- C2 at a reachable state: a distance request made busy, a temperature
request queued behind it, and a poll. -/
theorem at_most_one_pending_witness :
    Reachable (run [.request_distance 0, .request_temperature 1, .data_available 2]
      (new ⟨[], []⟩ 0 500))
    ∧ ¬ ((run [.request_distance 0, .request_temperature 1, .data_available 2]
          (new ⟨[], []⟩ 0 500))._distance_pending = true
        ∧ (run [.request_distance 0, .request_temperature 1, .data_available 2]
          (new ⟨[], []⟩ 0 500))._temperature_pending = true) :=
  ⟨⟨⟨[], []⟩, 0, 500, _, rfl⟩, at_most_one_pending _ ⟨⟨[], []⟩, 0, 500, _, rfl⟩⟩

end PingSerial

namespace PingSerial

/-! ## The request entry points -/

theorem request_distance_idle (now : Nat) (s : PingSerial) (h : OPERATION_PENDING s = false) :
    request_distance now s =
      { s with
        serial := { s.serial with tx := s.serial.tx ++ [0x55] }
        _distance_pending := true
        _op_started := millis now } := by
  simp [request_distance, h, write, Port.write]

theorem request_temperature_idle (now : Nat) (s : PingSerial)
    (h : OPERATION_PENDING s = false) :
    request_temperature now s =
      { s with
        serial := { s.serial with tx := s.serial.tx ++ [0x50] }
        _temperature_pending := true
        _op_started := millis now } := by
  simp [request_temperature, h, write, Port.write]

theorem request_distance_busy (now : Nat) (s : PingSerial) (h : OPERATION_PENDING s = true) :
    request_distance now s = { s with _distance_request_queued := true } := by
  simp [request_distance, h]

theorem request_temperature_busy (now : Nat) (s : PingSerial)
    (h : OPERATION_PENDING s = true) :
    request_temperature now s = { s with _temperature_request_queued := true } := by
  simp [request_temperature, h]

/-- C3: for an idle state `s` (nothing pending) `request_distance` writes the
single byte 0x55, sets `_distance_pending` and stores the clock reading in
`_op_started`, and `request_temperature` does the same with 0x50; for a busy
state `b` (something pending) each call only sets its own queued flag and
writes nothing.  So the sent bytes change exactly when nothing was pending, and
two `request_distance` calls in a row on an idle state send 0x55 once. -/
theorem request_sends_iff_idle (now later : Nat) (s b : PingSerial)
    (idle : OPERATION_PENDING s = false) (busy : OPERATION_PENDING b = true) :
    (request_distance now s =
        { s with
          serial := { s.serial with tx := s.serial.tx ++ [0x55] }
          _distance_pending := true
          _op_started := millis now }
      ∧ request_temperature now s =
        { s with
          serial := { s.serial with tx := s.serial.tx ++ [0x50] }
          _temperature_pending := true
          _op_started := millis now })
    ∧ (request_distance now b = { b with _distance_request_queued := true }
      ∧ request_temperature now b = { b with _temperature_request_queued := true })
    ∧ ((request_distance now s).serial.tx ≠ s.serial.tx
      ∧ (request_temperature now s).serial.tx ≠ s.serial.tx
      ∧ (request_distance now b).serial.tx = b.serial.tx
      ∧ (request_temperature now b).serial.tx = b.serial.tx)
    ∧ ((request_distance later (request_distance now s)).serial.tx = s.serial.tx ++ [0x55]
      ∧ (request_distance later (request_distance now s)).serial.tx
        = (request_distance now s).serial.tx) := by
  have hb : OPERATION_PENDING (request_distance now s) = true := by
    rw [request_distance_idle now s idle]; simp [OPERATION_PENDING]
  refine ⟨⟨request_distance_idle now s idle, request_temperature_idle now s idle⟩,
    ⟨request_distance_busy now b busy, request_temperature_busy now b busy⟩, ⟨?_, ?_, ?_, ?_⟩,
    ?_, ?_⟩
  · rw [request_distance_idle now s idle]; simp
  · rw [request_temperature_idle now s idle]; simp
  · rw [request_distance_busy now b busy]
  · rw [request_temperature_busy now b busy]
  · rw [request_distance_busy later _ hb, request_distance_idle now s idle]
  · rw [request_distance_busy later _ hb]

/-- C3 at a newly constructed object (idle) and at the same object after one
distance request (busy). -/
theorem request_sends_iff_idle_witness :
    (OPERATION_PENDING (new ⟨[], []⟩ 0 500) = false
      ∧ OPERATION_PENDING (request_distance 0 (new ⟨[], []⟩ 0 500)) = true)
    ∧ (request_distance 7 (request_distance 5 (new ⟨[], []⟩ 0 500))).serial.tx = [0x55] :=
  ⟨⟨by decide, by decide⟩,
    (request_sends_iff_idle 5 7 (new ⟨[], []⟩ 0 500) (request_distance 0 (new ⟨[], []⟩ 0 500))
      (by decide) (by decide)).2.2.2.1⟩

end PingSerial

namespace PingSerial

/-! ## The timeout part of `data_available` -/

theorem timeout_idle (now : Nat) (s : PingSerial)
    (h : ¬ millis now > (s._op_started + s._op_timeout_ms) % 4294967296) :
    data_available_timeout now s = s := by
  unfold data_available_timeout
  rw [if_neg]
  rintro ⟨_, hgt⟩
  exact h hgt

theorem timeout_fire_distance (now : Nat) (s : PingSerial)
    (hd : s._distance_pending = true) (ht : s._temperature_pending = false)
    (hgt : millis now > (s._op_started + s._op_timeout_ms) % 4294967296) :
    data_available_timeout now s =
      { s with
        serial :=
          { rx := s.serial.rx.drop (s.serial.available % 256)
            tx := s.serial.tx ++ [0x55] }
        _timeout_count := max ((s._timeout_count + 1) % 65536) 1
        _op_started := millis now } := by
  cases s with
  | mk serial a b c d e f g h i j k l m n =>
    simp only at hd ht hgt
    subst hd ht
    unfold data_available_timeout
    rw [if_pos ⟨by simp [OPERATION_PENDING], hgt⟩]
    simp [read_snd, request_distance, OPERATION_PENDING, write, Port.write]

theorem timeout_fire_temperature (now : Nat) (s : PingSerial)
    (hd : s._distance_pending = false) (ht : s._temperature_pending = true)
    (hgt : millis now > (s._op_started + s._op_timeout_ms) % 4294967296) :
    data_available_timeout now s =
      { s with
        serial :=
          { rx := s.serial.rx.drop (s.serial.available % 256)
            tx := s.serial.tx ++ [0x50] }
        _timeout_count := max ((s._timeout_count + 1) % 65536) 1
        _op_started := millis now } := by
  cases s with
  | mk serial a b c d e f g h i j k l m n =>
    simp only at hd ht hgt
    subst hd ht
    unfold data_available_timeout
    rw [if_pos ⟨by simp [OPERATION_PENDING], hgt⟩]
    simp [read_snd, request_temperature, OPERATION_PENDING, write, Port.write]

theorem rx_wait (now available : Nat) (s : PingSerial)
    (h : (s._distance_pending = true ∧ available < 2)
      ∨ (s._distance_pending = false ∧ available = 0)) :
    data_available_rx now available s = s := by
  unfold data_available_rx
  rcases h with ⟨hd, ha⟩ | ⟨hd, ha⟩
  · simp [hd, ha]
  · simp [ha]

end PingSerial

namespace PingSerial

theorem timeout_count_step (c : Nat) (hc : c < 65536) :
    max ((c + 1) % 65536) 1 = if c = 65535 then 1 else c + 1 := by
  split
  · next h => subst h; decide
  · next h =>
    have h1 : (c + 1) % 65536 = c + 1 := Nat.mod_eq_of_lt (by omega)
    rw [h1]
    omega

/-- C4, as stated, fails: a distance request sent at time 0 is pending, three
bytes wait, and the poll at time 100 (more than 99 ms later) neither completes
the request nor counts a timeout: the over-long answer is dropped and the
request sent again with a new start time, so the timeout test sees no delay. -/
theorem timeout_not_counted_after_overlong_retry :
    (run [.request_distance 0, .receive [1, 2, 3]] (new ⟨[], []⟩ 0 500))._distance_pending = true
    ∧ (run [.request_distance 0, .receive [1, 2, 3]] (new ⟨[], []⟩ 0 500))._op_started = 0
    ∧ (run [.request_distance 0, .receive [1, 2, 3]] (new ⟨[], []⟩ 0 500))._timeout_count = 0
    ∧ millis 100 > 0 + 99
    ∧ (data_available 100
        (run [.request_distance 0, .receive [1, 2, 3]] (new ⟨[], []⟩ 0 500))).2._distance_avail
      = false
    ∧ (data_available 100
        (run [.request_distance 0, .receive [1, 2, 3]] (new ⟨[], []⟩ 0 500))).2._distance_pending
      = true
    ∧ (data_available 100
        (run [.request_distance 0, .receive [1, 2, 3]] (new ⟨[], []⟩ 0 500))).2._timeout_count
      = 0 := by
  decide

/-- C4, amended: let one request be pending, started at `_op_started` with
`_op_started + 99` below `2^32`, the timeout be 99 ms, and let the poll see too
few bytes to act on (fewer than 2 for a pending distance, none for a pending
temperature).  Every poll at a clock reading `late` above `_op_started + 99`
sets the timeout counter to `c + 1` (to 1 from 65535), drops the bytes it
counted (all of them when fewer than 256 wait), writes the opcode of the
pending kind once and stores the reading as the new start; pending, queued and
available flags and the stored values stay as they were.  Every poll at a
reading `early` not above `_op_started + 99` changes nothing.  From a new
object, `request_temperature` at `t` and a poll at `t + 100` without bytes
writes 0x50 once and leaves the counter at 1, whenever the reading at `t` is
at least 100 ms before the wrap of the clock. -/
theorem timeout_retry_when_response_untouched (s : PingSerial)
    (h99 : s._op_timeout_ms = 99) (hnw : s._op_started + 99 < 4294967296)
    (hc : s._timeout_count < 65536)
    (hk : (s._distance_pending = true ∧ s._temperature_pending = false
            ∧ s.serial.available % 256 < 2)
        ∨ (s._distance_pending = false ∧ s._temperature_pending = true
            ∧ s.serial.available % 256 = 0)) :
    (∀ late : Nat, millis late > s._op_started + 99 →
      (data_available late s).2 =
        { s with
          serial :=
            { rx := s.serial.rx.drop (s.serial.available % 256)
              tx := s.serial.tx ++ [if s._distance_pending then 0x55 else 0x50] }
          _timeout_count := if s._timeout_count = 65535 then 1 else s._timeout_count + 1
          _op_started := millis late }
      ∧ (s.serial.available < 256 → (data_available late s).2.serial.rx = []))
    ∧ (∀ early : Nat, millis early ≤ s._op_started + 99 → (data_available early s).2 = s)
    ∧ (∀ t lo hi : Nat, millis t + 100 < 4294967296 →
      (data_available (t + 100) (request_temperature t (new ⟨[], []⟩ lo hi))).2.serial.tx
          = (request_temperature t (new ⟨[], []⟩ lo hi)).serial.tx ++ [0x50]
      ∧ (data_available (t + 100)
          (request_temperature t (new ⟨[], []⟩ lo hi))).2._timeout_count = 1) := by
  have hpend : OPERATION_PENDING s = true := by
    rcases hk with ⟨hd, _, _⟩ | ⟨_, htp, _⟩
    · simp [OPERATION_PENDING, hd]
    · simp [OPERATION_PENDING, htp]
  have hwait : (s._distance_pending = true ∧ s.serial.available % 256 < 2)
      ∨ (s._distance_pending = false ∧ s.serial.available % 256 = 0) := by
    rcases hk with ⟨hd, _, ha⟩ | ⟨hd, _, ha⟩
    · exact Or.inl ⟨hd, ha⟩
    · exact Or.inr ⟨hd, ha⟩
  have hsum : (s._op_started + s._op_timeout_ms) % 4294967296 = s._op_started + 99 := by
    rw [h99]; exact Nat.mod_eq_of_lt hnw
  refine ⟨fun late hlate => ?_, fun early hearly => ?_, fun t lo hi ht => ?_⟩
  · have hfire : (data_available late s).2 =
        { s with
          serial :=
            { rx := s.serial.rx.drop (s.serial.available % 256)
              tx := s.serial.tx ++ [if s._distance_pending then 0x55 else 0x50] }
          _timeout_count := if s._timeout_count = 65535 then 1 else s._timeout_count + 1
          _op_started := millis late } := by
      unfold data_available
      simp only []
      rw [queued_skip late _ s (Or.inr hpend), rx_wait late _ s hwait]
      rcases hk with ⟨hd, htp, _⟩ | ⟨hd, htp, _⟩
      · rw [timeout_fire_distance late s hd htp (by rw [hsum]; exact hlate),
          timeout_count_step _ hc, hd]
        rfl
      · rw [timeout_fire_temperature late s hd htp (by rw [hsum]; exact hlate),
          timeout_count_step _ hc, hd]
        rfl
    refine ⟨hfire, fun hlt => ?_⟩
    rw [hfire]
    have : s.serial.available % 256 = s.serial.rx.length := by
      unfold Port.available at *
      exact Nat.mod_eq_of_lt hlt
    simp [this]
  · unfold data_available
    simp only []
    rw [queued_skip early _ s (Or.inr hpend), rx_wait early _ s hwait,
      timeout_idle early s (by rw [hsum]; omega)]
  · have hm : millis (t + 100) = millis t + 100 := by
      unfold millis at *
      omega
    have hreq : request_temperature t (new ⟨[], []⟩ lo hi) =
        { new ⟨[], [0x50]⟩ lo hi with
          _temperature_pending := true
          _op_started := millis t } := by
      simp [request_temperature, OPERATION_PENDING, new, Init, defaults, write, Port.write]
    rw [hreq]
    unfold data_available
    simp only []
    rw [queued_skip (t + 100) _ _ (Or.inr (by simp [OPERATION_PENDING])),
      rx_wait (t + 100) _ _ (Or.inr ⟨by simp [new, Init, defaults], by simp [Port.available, new, Init, defaults]⟩),
      timeout_fire_temperature (t + 100) _ (by simp [new, Init, defaults]) rfl
        (by
          simp only [new, Init, defaults]
          rw [hm, Nat.mod_eq_of_lt (by omega)]
          omega)]
    simp [new, Init, defaults]

/-- C4, amended, on the scenario of the specification (a temperature request
sent at time 0, polls at times 100 and 50 with no byte received) and on a
temperature request sent at reading 4294967196, where `_op_started + 99` is
the largest 32-bit value and a poll at any reading changes nothing. -/
theorem timeout_retry_when_response_untouched_witness :
    ((request_temperature 0 (new ⟨[], []⟩ 0 500))._op_timeout_ms = 99
      ∧ (request_temperature 0 (new ⟨[], []⟩ 0 500))._op_started + 99 < 4294967296
      ∧ (request_temperature 0 (new ⟨[], []⟩ 0 500))._timeout_count < 65536
      ∧ (request_temperature 0 (new ⟨[], []⟩ 0 500))._temperature_pending = true
      ∧ millis 100 > (request_temperature 0 (new ⟨[], []⟩ 0 500))._op_started + 99
      ∧ millis 50 ≤ (request_temperature 0 (new ⟨[], []⟩ 0 500))._op_started + 99
      ∧ millis 0 + 100 < 4294967296)
    ∧ (data_available 100 (request_temperature 0 (new ⟨[], []⟩ 0 500))).2.serial.tx
        = [0x50, 0x50]
    ∧ (data_available 100 (request_temperature 0 (new ⟨[], []⟩ 0 500))).2._timeout_count = 1
    ∧ (data_available 50 (request_temperature 0 (new ⟨[], []⟩ 0 500))).2
        = request_temperature 0 (new ⟨[], []⟩ 0 500)
    ∧ (data_available (0 + 100) (request_temperature 0 (new ⟨[], []⟩ 0 500))).2._timeout_count
        = 1
    ∧ (data_available 4294967290 (request_temperature 4294967196 (new ⟨[], []⟩ 0 500))).2
        = request_temperature 4294967196 (new ⟨[], []⟩ 0 500) :=
  ⟨by decide,
    (congrArg (fun r => r.serial.tx)
      ((timeout_retry_when_response_untouched (request_temperature 0 (new ⟨[], []⟩ 0 500))
        (by decide) (by decide) (by decide) (Or.inr (by decide))).1 100 (by decide)).1).trans
      (by decide),
    (congrArg (fun r => r._timeout_count)
      ((timeout_retry_when_response_untouched (request_temperature 0 (new ⟨[], []⟩ 0 500))
        (by decide) (by decide) (by decide) (Or.inr (by decide))).1 100 (by decide)).1).trans
      (by decide),
    (timeout_retry_when_response_untouched (request_temperature 0 (new ⟨[], []⟩ 0 500))
      (by decide) (by decide) (by decide) (Or.inr (by decide))).2.1 50 (by decide),
    ((timeout_retry_when_response_untouched (request_temperature 0 (new ⟨[], []⟩ 0 500))
      (by decide) (by decide) (by decide) (Or.inr (by decide))).2.2 0 0 500 (by decide)).2,
    (timeout_retry_when_response_untouched
      (request_temperature 4294967196 (new ⟨[], []⟩ 0 500))
      (by decide) (by decide) (by decide) (Or.inr (by decide))).2.1 4294967290 (by decide)⟩

end PingSerial

namespace PingSerial

/-! ## Answers that are too long -/

theorem rx_overlong_distance (now available : Nat) (s : PingSerial)
    (hd : s._distance_pending = true) (ht : s._temperature_pending = false)
    (ha : available > 2) :
    data_available_rx now available s =
      { s with
        serial := { rx := s.serial.rx.drop available, tx := s.serial.tx ++ [0x55] }
        _op_started := millis now } := by
  cases s with
  | mk serial a b c d e f g h i j k l m n =>
    simp only at hd ht
    subst hd ht
    unfold data_available_rx
    rw [if_pos (by omega), if_pos rfl, if_neg (by omega), if_pos ha]
    simp [read_snd, request_distance, OPERATION_PENDING, write, Port.write]

theorem rx_overlong_temperature (now available : Nat) (s : PingSerial)
    (hd : s._distance_pending = false) (ht : s._temperature_pending = true)
    (ha : available > 1) :
    data_available_rx now available s =
      { s with
        serial := { rx := s.serial.rx.drop available, tx := s.serial.tx ++ [0x50] }
        _op_started := millis now } := by
  cases s with
  | mk serial a b c d e f g h i j k l m n =>
    simp only at hd ht
    subst hd ht
    unfold data_available_rx
    rw [if_pos (by omega), if_neg (by simp), if_pos rfl, if_pos ha]
    simp [read_snd, request_temperature, OPERATION_PENDING, write, Port.write]

/-- Away from the wrap of the clock (`millis now + _op_timeout_ms` below
`2^32`), a poll that counts more bytes than the pending answer has drops the
counted bytes, writes the opcode of the pending kind once and stores the clock
reading as the new start; nothing else changes. -/
theorem overlong_retry_before_wrap (now : Nat) (s : PingSerial)
    (hw : millis now + s._op_timeout_ms < 4294967296)
    (hk : (s._distance_pending = true ∧ s._temperature_pending = false
            ∧ s.serial.available % 256 > 2)
        ∨ (s._distance_pending = false ∧ s._temperature_pending = true
            ∧ s.serial.available % 256 > 1)) :
    (data_available now s).2 =
      { s with
        serial :=
          { rx := s.serial.rx.drop (s.serial.available % 256)
            tx := s.serial.tx ++ [if s._distance_pending then 0x55 else 0x50] }
        _op_started := millis now } := by
  unfold data_available
  simp only []
  rcases hk with ⟨hd, ht, ha⟩ | ⟨hd, ht, ha⟩
  · rw [queued_skip now _ s (Or.inl (by omega)), rx_overlong_distance now _ s hd ht ha,
      timeout_idle, hd]
    · rfl
    · simp only []
      rw [Nat.mod_eq_of_lt hw]
      omega
  · rw [queued_skip now _ s (Or.inl (by omega)), rx_overlong_temperature now _ s hd ht ha,
      timeout_idle, hd]
    · rfl
    · simp only []
      rw [Nat.mod_eq_of_lt hw]
      omega

/-- C5 at a failing input: a distance request sent at clock reading 4294967200
is pending, three bytes wait, and the poll comes 50 ms later at reading
4294967250.  The over-long answer is dropped and the request sent again with
start 4294967250; the 32-bit sum `_op_started + 99` wraps to 53, the timeout
test succeeds at once, a timeout is counted and the opcode is written a second
time in the same poll. -/
theorem overlong_retry_near_clock_wrap :
    (run [.request_distance 4294967200, .receive [1, 2, 3]]
        (new ⟨[], []⟩ 0 500))._distance_pending = true
    ∧ (run [.request_distance 4294967200, .receive [1, 2, 3]]
        (new ⟨[], []⟩ 0 500)).serial.rx = [1, 2, 3]
    ∧ (run [.request_distance 4294967200, .receive [1, 2, 3]]
        (new ⟨[], []⟩ 0 500)).serial.tx = [0x55]
    ∧ (run [.request_distance 4294967200, .receive [1, 2, 3]]
        (new ⟨[], []⟩ 0 500))._timeout_count = 0
    ∧ (data_available 4294967250 (run [.request_distance 4294967200, .receive [1, 2, 3]]
        (new ⟨[], []⟩ 0 500))).2.serial.tx = [0x55, 0x55, 0x55]
    ∧ (data_available 4294967250 (run [.request_distance 4294967200, .receive [1, 2, 3]]
        (new ⟨[], []⟩ 0 500))).2._timeout_count = 1 := by
  decide

end PingSerial

namespace PingSerial

/-! ## Queued requests -/

theorem rx_none (now : Nat) (s : PingSerial) : data_available_rx now 0 s = s := by
  simp [data_available_rx]

theorem queued_send_distance (now : Nat) (s : PingSerial)
    (idle : OPERATION_PENDING s = false) (hq : s._distance_request_queued = true) :
    data_available_queued now 0 s =
      { s with
        serial := { s.serial with tx := s.serial.tx ++ [0x55] }
        _distance_request_queued := false
        _distance_pending := true
        _op_started := millis now } := by
  unfold data_available_queued
  rw [if_pos ⟨rfl, idle⟩, if_pos hq, request_distance_idle]
  exact idle

theorem queued_send_temperature (now : Nat) (s : PingSerial)
    (idle : OPERATION_PENDING s = false) (hq : s._distance_request_queued = false)
    (hq2 : s._temperature_request_queued = true) :
    data_available_queued now 0 s =
      { s with
        serial := { s.serial with tx := s.serial.tx ++ [0x50] }
        _temperature_request_queued := false
        _temperature_pending := true
        _op_started := millis now } := by
  unfold data_available_queued
  rw [if_pos ⟨rfl, idle⟩, if_neg (by simp [hq]), if_pos hq2, request_temperature_idle]
  exact idle

theorem queued_nothing (now available : Nat) (s : PingSerial)
    (hq : s._distance_request_queued = false) (hq2 : s._temperature_request_queued = false) :
    data_available_queued now available s = s := by
  unfold data_available_queued
  simp [hq, hq2]

theorem poll_queued_distance (now : Nat) (s : PingSerial)
    (idle : OPERATION_PENDING s = false) (h0 : s.serial.available % 256 = 0)
    (hq : s._distance_request_queued = true) :
    (data_available now s).2 =
      (if millis now > (millis now + s._op_timeout_ms) % 4294967296 then
        { s with
          serial := { s.serial with tx := s.serial.tx ++ [0x55, 0x55] }
          _distance_request_queued := false
          _distance_pending := true
          _timeout_count := max ((s._timeout_count + 1) % 65536) 1
          _op_started := millis now }
      else
        { s with
          serial := { s.serial with tx := s.serial.tx ++ [0x55] }
          _distance_request_queued := false
          _distance_pending := true
          _op_started := millis now }) := by
  have hdp : s._distance_pending = false ∧ s._temperature_pending = false := by
    simpa [OPERATION_PENDING] using idle
  obtain ⟨hd, ht⟩ := hdp
  unfold data_available
  simp only [h0]
  rw [queued_send_distance now s idle hq, rx_none]
  split
  · next hw =>
    rw [timeout_fire_distance]
    · have hlen := h0
      unfold Port.available at hlen
      simp [Port.available, hlen]
    · rfl
    · exact ht
    · exact hw
  · next hw =>
    rw [timeout_idle now _ hw]

theorem poll_queued_temperature (now : Nat) (s : PingSerial)
    (idle : OPERATION_PENDING s = false) (h0 : s.serial.available % 256 = 0)
    (hq : s._distance_request_queued = false) (hq2 : s._temperature_request_queued = true) :
    (data_available now s).2 =
      (if millis now > (millis now + s._op_timeout_ms) % 4294967296 then
        { s with
          serial := { s.serial with tx := s.serial.tx ++ [0x50, 0x50] }
          _temperature_request_queued := false
          _temperature_pending := true
          _timeout_count := max ((s._timeout_count + 1) % 65536) 1
          _op_started := millis now }
      else
        { s with
          serial := { s.serial with tx := s.serial.tx ++ [0x50] }
          _temperature_request_queued := false
          _temperature_pending := true
          _op_started := millis now }) := by
  have hdp : s._distance_pending = false ∧ s._temperature_pending = false := by
    simpa [OPERATION_PENDING] using idle
  obtain ⟨hd, ht⟩ := hdp
  unfold data_available
  simp only [h0]
  rw [queued_send_temperature now s idle hq hq2, rx_none]
  split
  · next hw =>
    rw [timeout_fire_temperature]
    · have hlen := h0
      unfold Port.available at hlen
      simp [Port.available, hlen]
    · exact hd
    · rfl
    · exact hw
  · next hw =>
    rw [timeout_idle now _ hw]

theorem poll_nothing_queued (now : Nat) (s : PingSerial)
    (idle : OPERATION_PENDING s = false) (h0 : s.serial.available % 256 = 0)
    (hq : s._distance_request_queued = false) (hq2 : s._temperature_request_queued = false) :
    data_available now s = (data_available_retval s, s) := by
  unfold data_available
  simp only [h0]
  rw [queued_nothing now 0 s hq hq2, rx_none, timeout_skip now s idle]

/-- C6: let nothing be pending and the poll count zero bytes.  With a distance
request queued the poll clears `_distance_request_queued`, writes 0x55, sets
`_distance_pending` and leaves `_temperature_request_queued` alone; with only a
temperature request queued it clears that flag, writes 0x50 and sets
`_temperature_pending`; with nothing queued the state is unchanged.  The
opcode is written once, except in the last `_op_timeout_ms` milliseconds before
the 32-bit clock wraps, where the timeout part of the same poll counts a
timeout and writes the same opcode a second time. -/
theorem poll_services_one_queued_request (now : Nat) (s : PingSerial)
    (idle : OPERATION_PENDING s = false) (h0 : s.serial.available % 256 = 0) :
    (s._distance_request_queued = true →
      (data_available now s).2 =
        (if millis now > (millis now + s._op_timeout_ms) % 4294967296 then
          { s with
            serial := { s.serial with tx := s.serial.tx ++ [0x55, 0x55] }
            _distance_request_queued := false
            _distance_pending := true
            _timeout_count := max ((s._timeout_count + 1) % 65536) 1
            _op_started := millis now }
        else
          { s with
            serial := { s.serial with tx := s.serial.tx ++ [0x55] }
            _distance_request_queued := false
            _distance_pending := true
            _op_started := millis now }))
    ∧ (s._distance_request_queued = false → s._temperature_request_queued = true →
      (data_available now s).2 =
        (if millis now > (millis now + s._op_timeout_ms) % 4294967296 then
          { s with
            serial := { s.serial with tx := s.serial.tx ++ [0x50, 0x50] }
            _temperature_request_queued := false
            _temperature_pending := true
            _timeout_count := max ((s._timeout_count + 1) % 65536) 1
            _op_started := millis now }
        else
          { s with
            serial := { s.serial with tx := s.serial.tx ++ [0x50] }
            _temperature_request_queued := false
            _temperature_pending := true
            _op_started := millis now }))
    ∧ (s._distance_request_queued = false → s._temperature_request_queued = false →
      data_available now s = (data_available_retval s, s)) :=
  ⟨poll_queued_distance now s idle h0, poll_queued_temperature now s idle h0,
    poll_nothing_queued now s idle h0⟩

/-- C6 on three idle states with an empty port: both requests queued (reached by
queueing both behind a distance request that is then answered), only the
temperature request queued, and nothing queued. -/
theorem poll_services_one_queued_request_witness :
    (OPERATION_PENDING (run [.request_distance 0, .request_distance 1, .request_temperature 2,
        .receive [0, 10], .data_available 3] (new ⟨[], []⟩ 0 500)) = false
      ∧ (run [.request_distance 0, .request_distance 1, .request_temperature 2,
        .receive [0, 10], .data_available 3] (new ⟨[], []⟩ 0 500)).serial.available % 256 = 0
      ∧ (run [.request_distance 0, .request_distance 1, .request_temperature 2,
        .receive [0, 10], .data_available 3]
          (new ⟨[], []⟩ 0 500))._distance_request_queued = true
      ∧ (run [.request_distance 0, .request_distance 1, .request_temperature 2,
        .receive [0, 10], .data_available 3]
          (new ⟨[], []⟩ 0 500))._temperature_request_queued = true)
    ∧ ((data_available 4 (run [.request_distance 0, .request_distance 1, .request_temperature 2,
        .receive [0, 10], .data_available 3] (new ⟨[], []⟩ 0 500))).2.serial.tx = [0x55, 0x55]
      ∧ (data_available 4 (run [.request_distance 0, .request_distance 1,
        .request_temperature 2, .receive [0, 10], .data_available 3]
          (new ⟨[], []⟩ 0 500))).2._temperature_request_queued = true)
    ∧ (data_available 4 (run [.request_distance 0, .request_temperature 2,
        .receive [0, 10], .data_available 3] (new ⟨[], []⟩ 0 500))).2.serial.tx = [0x55, 0x50]
    ∧ (data_available 4 (new ⟨[], []⟩ 0 500)).2 = new ⟨[], []⟩ 0 500 :=
  ⟨by decide,
    ⟨(congrArg (fun r => r.serial.tx)
        ((poll_services_one_queued_request 4 (run [.request_distance 0, .request_distance 1,
          .request_temperature 2, .receive [0, 10], .data_available 3] (new ⟨[], []⟩ 0 500))
          (by decide) (by decide)).1 (by decide))).trans (by decide),
      (congrArg (fun r => r._temperature_request_queued)
        ((poll_services_one_queued_request 4 (run [.request_distance 0, .request_distance 1,
          .request_temperature 2, .receive [0, 10], .data_available 3] (new ⟨[], []⟩ 0 500))
          (by decide) (by decide)).1 (by decide))).trans (by decide)⟩,
    (congrArg (fun r => r.serial.tx)
      ((poll_services_one_queued_request 4 (run [.request_distance 0, .request_temperature 2,
        .receive [0, 10], .data_available 3] (new ⟨[], []⟩ 0 500))
        (by decide) (by decide)).2.1 (by decide) (by decide))).trans (by decide),
    congrArg Prod.snd
      ((poll_services_one_queued_request 4 (new ⟨[], []⟩ 0 500)
        (by decide) (by decide)).2.2 (by decide) (by decide))⟩

end PingSerial

namespace PingSerial

/-! ## A temperature request queued behind a distance request -/

theorem poll_temperature_waits (now : Nat) (s : PingSerial) (h : TemperatureWaits s) :
    TemperatureWaits (data_available now s).2 := by
  obtain ⟨hd, ht, hq, hrx, htx⟩ := h
  have hav : s.serial.available % 256 = 0 := by simp [Port.available, hrx]
  unfold data_available
  simp only [hav]
  rw [queued_skip now 0 s (Or.inr (by simp [OPERATION_PENDING, hd])), rx_none]
  by_cases hw : millis now > (s._op_started + s._op_timeout_ms) % 4294967296
  · rw [timeout_fire_distance now s hd ht hw]
    refine ⟨hd, ht, hq, ?_, ?_⟩
    · simp [hrx]
    · simp [htx]
  · rw [timeout_idle now s hw]
    exact ⟨hd, ht, hq, hrx, htx⟩

theorem polls_temperature_waits (ts : List Nat) (s : PingSerial) (h : TemperatureWaits s) :
    TemperatureWaits (run (ts.map Call.data_available) s) := by
  induction ts generalizing s with
  | nil => exact h
  | cons t ts ih => exact ih _ (poll_temperature_waits t s h)

/-- C7, as stated, fails on the timeout route: a distance request at time 0, a
temperature request at time 1, a poll at time 100 without bytes (the timeout is
counted and 0x55 sent again) and a next poll at time 101 without bytes, which
writes nothing: the distance request is still pending and the temperature
request still queued. -/
theorem temperature_not_sent_after_timeout :
    (run [.request_distance 0, .request_temperature 1]
        (new ⟨[], []⟩ 0 500))._temperature_request_queued = true
    ∧ (run [.request_distance 0, .request_temperature 1, .data_available 100]
        (new ⟨[], []⟩ 0 500))._timeout_count = 1
    ∧ (run [.request_distance 0, .request_temperature 1, .data_available 100]
        (new ⟨[], []⟩ 0 500)).serial.tx = [0x55, 0x55]
    ∧ (run [.request_distance 0, .request_temperature 1, .data_available 100]
        (new ⟨[], []⟩ 0 500)).serial.available = 0
    ∧ (run [.request_distance 0, .request_temperature 1, .data_available 100,
        .data_available 101] (new ⟨[], []⟩ 0 500)).serial.tx = [0x55, 0x55]
    ∧ (run [.request_distance 0, .request_temperature 1, .data_available 100,
        .data_available 101] (new ⟨[], []⟩ 0 500))._temperature_request_queued = true
    ∧ (run [.request_distance 0, .request_temperature 1, .data_available 100,
        .data_available 101] (new ⟨[], []⟩ 0 500))._distance_pending = true := by
  decide

/-- C7, amended: for every clock schedule and answer bytes `h`, `l`, a
`request_temperature` made while a distance request is pending sets
`_temperature_request_queued` and writes nothing.  When the two-byte answer
then completes the distance request, the next poll that counts no bytes writes
0x50 (twice in the last 99 ms before the 32-bit clock wraps) and makes the
temperature request pending.  While no byte arrives, polls at any times `ts`
(timeouts included) keep the distance request pending and the temperature
request queued and never write 0x50. -/
theorem queued_temperature_sent_after_distance_answer (lo hi t0 t1 t2 t3 h l : Nat)
    (ts : List Nat) (hh : h < 256) (hl : l < 256) :
    ((run [.request_distance t0, .request_temperature t1]
        (new ⟨[], []⟩ lo hi))._temperature_request_queued = true
      ∧ (run [.request_distance t0, .request_temperature t1] (new ⟨[], []⟩ lo hi)).serial.tx
        = (run [.request_distance t0] (new ⟨[], []⟩ lo hi)).serial.tx)
    ∧ ((run [.request_distance t0, .request_temperature t1, .receive [h, l], .data_available t2]
        (new ⟨[], []⟩ lo hi))._distance_pending = false
      ∧ (run [.request_distance t0, .request_temperature t1, .receive [h, l], .data_available t2]
        (new ⟨[], []⟩ lo hi))._distance_avail = true
      ∧ (run [.request_distance t0, .request_temperature t1, .receive [h, l], .data_available t2]
        (new ⟨[], []⟩ lo hi)).serial.available = 0
      ∧ (run [.request_distance t0, .request_temperature t1, .receive [h, l], .data_available t2]
        (new ⟨[], []⟩ lo hi)).serial.tx = [0x55])
    ∧ ((run [.request_distance t0, .request_temperature t1, .receive [h, l], .data_available t2,
        .data_available t3] (new ⟨[], []⟩ lo hi)).serial.tx
        = (if millis t3 > (millis t3 + 99) % 4294967296 then [0x55, 0x50, 0x50]
           else [0x55, 0x50])
      ∧ (run [.request_distance t0, .request_temperature t1, .receive [h, l], .data_available t2,
        .data_available t3] (new ⟨[], []⟩ lo hi))._temperature_pending = true
      ∧ (run [.request_distance t0, .request_temperature t1, .receive [h, l], .data_available t2,
        .data_available t3] (new ⟨[], []⟩ lo hi))._temperature_request_queued = false)
    ∧ ((run ([.request_distance t0, .request_temperature t1] ++ ts.map Call.data_available)
        (new ⟨[], []⟩ lo hi))._distance_pending = true
      ∧ (run ([.request_distance t0, .request_temperature t1] ++ ts.map Call.data_available)
        (new ⟨[], []⟩ lo hi))._temperature_request_queued = true
      ∧ 0x50 ∉ (run ([.request_distance t0, .request_temperature t1]
          ++ ts.map Call.data_available) (new ⟨[], []⟩ lo hi)).serial.tx) := by
  have hA : run [.request_distance t0, .request_temperature t1] (new ⟨[], []⟩ lo hi) =
      { new ⟨[], [0x55]⟩ lo hi with
        _distance_pending := true
        _op_started := millis t0
        _temperature_request_queued := true } := by
    simp [run, Call.apply, request_distance, request_temperature, OPERATION_PENDING, new, Init,
      defaults, write, Port.write]
  have hB : run [.request_distance t0, .request_temperature t1, .receive [h, l]]
      (new ⟨[], []⟩ lo hi) =
      { new ⟨[h, l], [0x55]⟩ lo hi with
        _distance_pending := true
        _op_started := millis t0
        _temperature_request_queued := true } := by
    simp [run, Call.apply, request_distance, request_temperature, OPERATION_PENDING, new, Init,
      defaults, write, Port.write, Port.receive]
  have hC : run [.request_distance t0, .request_temperature t1, .receive [h, l],
      .data_available t2] (new ⟨[], []⟩ lo hi) =
      data_available_distance t2
        { new ⟨[h, l], [0x55]⟩ lo hi with
          _distance_pending := true
          _op_started := millis t0
          _temperature_request_queued := true } := by
    have e : run [.request_distance t0, .request_temperature t1, .receive [h, l],
        .data_available t2] (new ⟨[], []⟩ lo hi)
        = (data_available t2 (run [.request_distance t0, .request_temperature t1,
            .receive [h, l]] (new ⟨[], []⟩ lo hi))).2 := rfl
    rw [e, hB, poll_valid_distance t2 _ h l [] hh hl]
    · rfl
    · rfl
    · rfl
    · rfl
  have hD : run [.request_distance t0, .request_temperature t1, .receive [h, l],
      .data_available t2, .data_available t3] (new ⟨[], []⟩ lo hi)
      = (data_available t3 (run [.request_distance t0, .request_temperature t1,
          .receive [h, l], .data_available t2] (new ⟨[], []⟩ lo hi))).2 := rfl
  have hW : TemperatureWaits
      (run [.request_distance t0, .request_temperature t1] (new ⟨[], []⟩ lo hi)) := by
    rw [hA]
    simp [TemperatureWaits, new, Init, defaults]
  refine ⟨⟨?_, ?_⟩, ⟨?_, ?_, ?_, ?_⟩, ?_, ?_⟩
  · rw [hA]
  · rw [hA]
    simp [run, Call.apply, request_distance, OPERATION_PENDING, new, Init, defaults, write,
      Port.write]
  · rw [hC, distance_eq t2 _ h l [] hh hl rfl]
  · rw [hC, distance_eq t2 _ h l [] hh hl rfl]
  · rw [hC, distance_eq t2 _ h l [] hh hl rfl]
    rfl
  · rw [hC, distance_eq t2 _ h l [] hh hl rfl]
    rfl
  · rw [hD, hC, distance_eq t2 _ h l [] hh hl rfl, poll_queued_temperature t3]
    · simp only [new, Init, defaults]
      split <;> simp
    · rfl
    · rfl
    · rfl
    · rfl
  · have e : run ([.request_distance t0, .request_temperature t1] ++ ts.map Call.data_available)
        (new ⟨[], []⟩ lo hi)
        = run (ts.map Call.data_available)
            (run [.request_distance t0, .request_temperature t1] (new ⟨[], []⟩ lo hi)) := rfl
    rw [e]
    obtain ⟨h1, _, h3, _, h5⟩ := polls_temperature_waits ts _ hW
    exact ⟨h1, h3, h5⟩

/-- C7, amended, on range (0, 500): requests at times 0 and 1, the answer
`[0x01, 0xF4]` polled at time 50 and the next poll at time 60. -/
theorem queued_temperature_sent_after_distance_answer_witness :
    (0x01 < 256 ∧ 0xF4 < 256)
    ∧ (run [.request_distance 0, .request_temperature 1, .receive [0x01, 0xF4],
        .data_available 50, .data_available 60] (new ⟨[], []⟩ 0 500)).serial.tx = [0x55, 0x50] :=
  ⟨by decide,
    (queued_temperature_sent_after_distance_answer 0 500 0 1 50 60 0x01 0xF4 [100, 101]
      (by decide) (by decide)).2.2.1.1.trans (by decide)⟩

end PingSerial

namespace PingSerial

/-! ## The getters -/

/-- C8: `get_distance` returns the stored distance when `_distance_avail` is set
and 0 otherwise, its only effect is to clear that flag, and a second call right
after it returns 0; `get_temperature` does the same with `_temperature_avail`
and the stored temperature. -/
theorem getters_return_once (s : PingSerial) :
    ((get_distance s).1 = (if s._distance_avail then s._distance else 0)
      ∧ (get_distance s).2 = { s with _distance_avail := false }
      ∧ (get_distance (get_distance s).2).1 = 0)
    ∧ ((get_temperature s).1 = (if s._temperature_avail then s._temperature else 0)
      ∧ (get_temperature s).2 = { s with _temperature_avail := false }
      ∧ (get_temperature (get_temperature s).2).1 = 0) := by
  cases s with
  | mk serial a b c d e f g h i j k l m n =>
    cases k <;> cases l <;> simp [get_distance, get_temperature]

end PingSerial

namespace PingSerial

/-! ## The mask returned by `data_available` -/

theorem request_distance_avail (now : Nat) (s : PingSerial) :
    (request_distance now s)._distance_avail = s._distance_avail
    ∧ (request_distance now s)._temperature_avail = s._temperature_avail := by
  unfold request_distance
  split <;> exact ⟨rfl, rfl⟩

theorem request_temperature_avail (now : Nat) (s : PingSerial) :
    (request_temperature now s)._distance_avail = s._distance_avail
    ∧ (request_temperature now s)._temperature_avail = s._temperature_avail := by
  unfold request_temperature
  split <;> exact ⟨rfl, rfl⟩

theorem queued_avail (now available : Nat) (s : PingSerial) :
    (data_available_queued now available s)._distance_avail = s._distance_avail
    ∧ (data_available_queued now available s)._temperature_avail = s._temperature_avail := by
  unfold data_available_queued
  split
  · split
    · exact request_distance_avail now _
    · split
      · exact request_temperature_avail now _
      · exact ⟨rfl, rfl⟩
  · exact ⟨rfl, rfl⟩

theorem distance_avail (now : Nat) (s : PingSerial) :
    (data_available_distance now s)._distance_avail = true
    ∧ (data_available_distance now s)._temperature_avail = s._temperature_avail := by
  unfold data_available_distance
  simp only [read_snd]
  split
  · exact ⟨rfl, rfl⟩
  · split <;> exact ⟨rfl, rfl⟩

theorem rx_avail (now available : Nat) (s : PingSerial) :
    (s._distance_avail = true → (data_available_rx now available s)._distance_avail = true)
    ∧ (s._temperature_avail = true →
        (data_available_rx now available s)._temperature_avail = true) := by
  unfold data_available_rx
  split
  · split
    · split
      · exact ⟨id, id⟩
      · split
        · have h := request_distance_avail now
            { (read available s).2 with _distance_pending := false }
          rw [h.1, h.2]
          simp only [read_snd]
          exact ⟨id, id⟩
        · have h := distance_avail now s
          rw [h.1, h.2]
          exact ⟨fun _ => rfl, id⟩
    · split
      · split
        · have h := request_temperature_avail now
            { (read available s).2 with _temperature_pending := false }
          rw [h.1, h.2]
          simp only [read_snd]
          exact ⟨id, id⟩
        · refine ⟨fun h => ?_, fun _ => rfl⟩
          simpa only [read_snd] using h
      · exact ⟨id, id⟩
  · exact ⟨id, id⟩

theorem timeout_avail (now : Nat) (s : PingSerial) :
    (data_available_timeout now s)._distance_avail = s._distance_avail
    ∧ (data_available_timeout now s)._temperature_avail = s._temperature_avail := by
  unfold data_available_timeout
  split
  · simp only []
    split
    · have h := request_distance_avail now
        { (read (s.serial.available % 256)
            { s with _timeout_count := max ((s._timeout_count + 1) % 65536) 1 }).2 with
          _distance_pending := false }
      simp only [read_snd] at h ⊢
      exact h
    · have h := request_temperature_avail now
        { (read (s.serial.available % 256)
            { s with _timeout_count := max ((s._timeout_count + 1) % 65536) 1 }).2 with
          _temperature_pending := false }
      simp only [read_snd] at h ⊢
      exact h
  · exact ⟨rfl, rfl⟩

theorem data_available_avail (now : Nat) (s : PingSerial) :
    (s._distance_avail = true → (data_available now s).2._distance_avail = true)
    ∧ (s._temperature_avail = true → (data_available now s).2._temperature_avail = true) := by
  unfold data_available
  simp only []
  have h1 := queued_avail now (s.serial.available % 256) s
  have h2 := rx_avail now (s.serial.available % 256)
    (data_available_queued now (s.serial.available % 256) s)
  have h3 := timeout_avail now (data_available_rx now (s.serial.available % 256)
    (data_available_queued now (s.serial.available % 256) s))
  rw [h3.1, h3.2]
  rw [h1.1, h1.2] at h2
  exact h2

theorem data_available_fst (now : Nat) (s : PingSerial) :
    (data_available now s).1 = data_available_retval (data_available now s).2 := rfl

end PingSerial

namespace PingSerial

theorem apply_keeps_distance_avail (c : Call) (s : PingSerial) (hc : c ≠ Call.get_distance)
    (h : s._distance_avail = true) : (c.apply s)._distance_avail = true := by
  cases c with
  | request_distance now => exact (request_distance_avail now s).1.trans h
  | request_temperature now => exact (request_temperature_avail now s).1.trans h
  | data_available now => exact (data_available_avail now s).1 h
  | get_distance => exact absurd rfl hc
  | get_temperature =>
    show (get_temperature s).2._distance_avail = true
    unfold get_temperature
    split <;> exact h
  | display_debugging clear =>
    show (display_debugging clear s)._distance_avail = true
    unfold display_debugging
    split <;> exact h
  | receive bytes => exact h

theorem apply_keeps_temperature_avail (c : Call) (s : PingSerial)
    (hc : c ≠ Call.get_temperature)
    (h : s._temperature_avail = true) : (c.apply s)._temperature_avail = true := by
  cases c with
  | request_distance now => exact (request_distance_avail now s).2.trans h
  | request_temperature now => exact (request_temperature_avail now s).2.trans h
  | data_available now => exact (data_available_avail now s).2 h
  | get_distance =>
    show (get_distance s).2._temperature_avail = true
    unfold get_distance
    split <;> exact h
  | get_temperature => exact absurd rfl hc
  | display_debugging clear =>
    show (display_debugging clear s)._temperature_avail = true
    unfold display_debugging
    split <;> exact h
  | receive bytes => exact h

theorem run_keeps_distance_avail (calls : List Call) (s : PingSerial)
    (hc : ∀ c ∈ calls, c ≠ Call.get_distance) (h : s._distance_avail = true) :
    (run calls s)._distance_avail = true := by
  induction calls generalizing s with
  | nil => exact h
  | cons c cs ih =>
    exact ih _ (fun d hd => hc d (List.mem_cons_of_mem c hd))
      (apply_keeps_distance_avail c s (hc c (List.mem_cons_self c cs)) h)

theorem run_keeps_temperature_avail (calls : List Call) (s : PingSerial)
    (hc : ∀ c ∈ calls, c ≠ Call.get_temperature) (h : s._temperature_avail = true) :
    (run calls s)._temperature_avail = true := by
  induction calls generalizing s with
  | nil => exact h
  | cons c cs ih =>
    exact ih _ (fun d hd => hc d (List.mem_cons_of_mem c hd))
      (apply_keeps_temperature_avail c s (hc c (List.mem_cons_self c cs)) h)

theorem retval_bits (s : PingSerial) :
    (data_available_retval s &&& DISTANCE = DISTANCE ↔ s._distance_avail = true)
    ∧ (data_available_retval s &&& TEMPERATURE = TEMPERATURE ↔ s._temperature_avail = true)
    ∧ data_available_retval s ≤ 3 := by
  rw [retval_eq]
  cases s._distance_avail <;> cases s._temperature_avail <;> decide

/-- C9: the mask returned by `data_available` has bit 0x1 set exactly when
`_distance_avail` holds in the state the call leaves, bit 0x2 exactly when
`_temperature_avail` holds, and no other bit.  `data_available` and the request
calls never clear an available flag, so after any calls without
`get_distance` every later poll still reports the DISTANCE bit, and likewise
for the temperature. -/
theorem mask_reports_unfetched_values (now later : Nat) (s : PingSerial) (calls : List Call) :
    ((data_available now s).1 &&& DISTANCE = DISTANCE
        ↔ (data_available now s).2._distance_avail = true)
    ∧ ((data_available now s).1 &&& TEMPERATURE = TEMPERATURE
        ↔ (data_available now s).2._temperature_avail = true)
    ∧ (∀ i, 2 ≤ i → (data_available now s).1.testBit i = false)
    ∧ ((s._distance_avail = true → (data_available now s).2._distance_avail = true)
      ∧ (s._temperature_avail = true → (data_available now s).2._temperature_avail = true)
      ∧ (request_distance now s)._distance_avail = s._distance_avail
      ∧ (request_distance now s)._temperature_avail = s._temperature_avail
      ∧ (request_temperature now s)._distance_avail = s._distance_avail
      ∧ (request_temperature now s)._temperature_avail = s._temperature_avail)
    ∧ (s._distance_avail = true → (∀ c ∈ calls, c ≠ Call.get_distance) →
        (data_available later (run calls s)).1 &&& DISTANCE = DISTANCE)
    ∧ (s._temperature_avail = true → (∀ c ∈ calls, c ≠ Call.get_temperature) →
        (data_available later (run calls s)).1 &&& TEMPERATURE = TEMPERATURE) := by
  have hb := retval_bits (data_available now s).2
  have hl := retval_bits (data_available later (run calls s)).2
  refine ⟨hb.1, hb.2.1, ?_, ⟨(data_available_avail now s).1, (data_available_avail now s).2,
    (request_distance_avail now s).1, (request_distance_avail now s).2,
    (request_temperature_avail now s).1, (request_temperature_avail now s).2⟩, ?_, ?_⟩
  · intro i hi
    apply Nat.testBit_eq_false_of_lt
    have h3 : (data_available now s).1 ≤ 3 := hb.2.2
    have h4 : 2 ^ 2 ≤ 2 ^ i := Nat.pow_le_pow_right (by decide) hi
    omega
  · intro h hc
    exact hl.1.mpr ((data_available_avail later _).1 (run_keeps_distance_avail calls s hc h))
  · intro h hc
    exact hl.2.1.mpr ((data_available_avail later _).2 (run_keeps_temperature_avail calls s hc h))

/-- C9 on a state with a stored distance (range (0, 500), answer `[0x01, 0xF4]`):
after a temperature request, its answer, a poll, `get_temperature` and a new
distance request, the poll at time 63 still reports the DISTANCE bit. -/
theorem mask_reports_unfetched_values_witness :
    ((run [.request_distance 0, .receive [0x01, 0xF4], .data_available 50]
        (new ⟨[], []⟩ 0 500))._distance_avail = true
      ∧ (∀ c ∈ [Call.request_temperature 60, .receive [70], .data_available 61,
            .get_temperature, .request_distance 62], c ≠ Call.get_distance))
    ∧ (data_available 63
        (run [Call.request_temperature 60, .receive [70], .data_available 61,
            .get_temperature, .request_distance 62]
          (run [.request_distance 0, .receive [0x01, 0xF4], .data_available 50]
            (new ⟨[], []⟩ 0 500)))).1 &&& DISTANCE = DISTANCE :=
  ⟨⟨by decide, by decide⟩,
    (mask_reports_unfetched_values 0 63
      (run [.request_distance 0, .receive [0x01, 0xF4], .data_available 50]
        (new ⟨[], []⟩ 0 500))
      [Call.request_temperature 60, .receive [70], .data_available 61,
        .get_temperature, .request_distance 62]).2.2.2.2.1 (by decide) (by decide)⟩

end PingSerial

namespace PingSerial

/-! ## The temperature answer -/

theorem rx_valid_temperature (now : Nat) (s : PingSerial) (t : Nat) (rest : List Nat)
    (hd : s._distance_pending = false) (hp : s._temperature_pending = true)
    (hrx : s.serial.rx = t :: rest) :
    data_available_rx now 1 s =
      { s with
        serial := { s.serial with rx := rest }
        _temperature := (t : Int) - 45
        _temperature_pending := false
        _temperature_avail := true } := by
  unfold data_available_rx
  rw [if_pos (by decide), if_neg (by simp [hd]), if_pos hp, if_neg (by decide)]
  simp only [read_snd, read_one_fst, hrx, List.drop_succ_cons, List.drop_zero]

theorem poll_valid_temperature (now : Nat) (s : PingSerial) (t : Nat)
    (hd : s._distance_pending = false) (hp : s._temperature_pending = true)
    (hrx : s.serial.rx = [t]) :
    (data_available now s).2 =
      { s with
        serial := { s.serial with rx := [] }
        _temperature := (t : Int) - 45
        _temperature_pending := false
        _temperature_avail := true } := by
  have hav : s.serial.available % 256 = 1 := by simp [Port.available, hrx]
  unfold data_available
  simp only [hav]
  rw [queued_skip now 1 s (Or.inl (by decide)), rx_valid_temperature now s t [] hd hp hrx,
    timeout_skip]
  simp [OPERATION_PENDING, hd]

/-- C10: with a temperature request pending and exactly the one byte `t`
(0..255) waiting, `data_available` clears `_temperature_pending`, sets
`_temperature_avail` and returns a mask with the TEMPERATURE bit; the following
`get_temperature` returns `t - 45`, a value from -45 to 210, whatever the
distance bounds of the object are. -/
theorem temperature_response_decoded (now t : Nat) (s : PingSerial) (ht : t < 256)
    (hd : s._distance_pending = false) (hp : s._temperature_pending = true)
    (hrx : s.serial.rx = [t]) :
    (data_available now s).2._temperature_pending = false
    ∧ (data_available now s).2._temperature_avail = true
    ∧ (data_available now s).1 &&& TEMPERATURE = TEMPERATURE
    ∧ (get_temperature (data_available now s).2).1 = (t : Int) - 45
    ∧ -45 ≤ (get_temperature (data_available now s).2).1
    ∧ (get_temperature (data_available now s).2).1 ≤ 210 := by
  have h := poll_valid_temperature now s t hd hp hrx
  have hg : (get_temperature (data_available now s).2).1 = (t : Int) - 45 := by
    rw [h]; simp [get_temperature]
  refine ⟨by rw [h], by rw [h], ?_, hg, by rw [hg]; omega, by rw [hg]; omega⟩
  rw [data_available_fst]
  exact (retval_bits _).2.1.mpr (by rw [h])

/-- C10 from a new object with range (0, 500): a temperature request at time 0,
the byte 70 received, a poll at time 20; the temperature read is 25. -/
theorem temperature_response_decoded_witness :
    (70 < 256
      ∧ (run [.request_temperature 0, .receive [70]]
          (new ⟨[], []⟩ 0 500))._distance_pending = false
      ∧ (run [.request_temperature 0, .receive [70]]
          (new ⟨[], []⟩ 0 500))._temperature_pending = true
      ∧ (run [.request_temperature 0, .receive [70]] (new ⟨[], []⟩ 0 500)).serial.rx = [70])
    ∧ (get_temperature (data_available 20
        (run [.request_temperature 0, .receive [70]] (new ⟨[], []⟩ 0 500))).2).1 = 25 :=
  ⟨by decide,
    (temperature_response_decoded 20 70
      (run [.request_temperature 0, .receive [70]] (new ⟨[], []⟩ 0 500))
      (by decide) (by decide) (by decide) (by decide)).2.2.2.1.trans (by decide)⟩

end PingSerial

namespace PingSerial

/-! ## Where pending flags come from -/

theorem request_distance_flags (now : Nat) (s : PingSerial) :
    (request_distance now s)._temperature_pending = s._temperature_pending
    ∧ (request_distance now s)._temperature_request_queued = s._temperature_request_queued
    ∧ ((request_distance now s)._distance_pending
        = (s._distance_pending || !s._temperature_pending))
    ∧ ((request_distance now s)._distance_request_queued
        = (s._distance_request_queued || s._distance_pending || s._temperature_pending)) := by
  unfold request_distance OPERATION_PENDING
  cases hd : s._distance_pending <;> cases ht : s._temperature_pending <;> simp [write, hd, ht]

theorem request_temperature_flags (now : Nat) (s : PingSerial) :
    (request_temperature now s)._distance_pending = s._distance_pending
    ∧ (request_temperature now s)._distance_request_queued = s._distance_request_queued
    ∧ ((request_temperature now s)._temperature_pending
        = (s._temperature_pending || !s._distance_pending))
    ∧ ((request_temperature now s)._temperature_request_queued
        = (s._temperature_request_queued || s._distance_pending || s._temperature_pending)) := by
  unfold request_temperature OPERATION_PENDING
  cases hd : s._distance_pending <;> cases ht : s._temperature_pending <;> simp [write, hd, ht]

end PingSerial

namespace PingSerial

theorem get_distance_snd (s : PingSerial) :
    (get_distance s).2 = { s with _distance_avail := false } := by
  cases s with
  | mk serial a b c d e f g h i j k l m n =>
    cases k <;> simp [get_distance]

theorem get_temperature_snd (s : PingSerial) :
    (get_temperature s).2 = { s with _temperature_avail := false } := by
  cases s with
  | mk serial a b c d e f g h i j k l m n =>
    cases l <;> simp [get_temperature]

theorem display_debugging_flags (clear : Bool) (s : PingSerial) :
    (display_debugging clear s)._distance_pending = s._distance_pending
    ∧ (display_debugging clear s)._temperature_pending = s._temperature_pending
    ∧ (display_debugging clear s)._distance_avail = s._distance_avail
    ∧ (display_debugging clear s)._temperature_avail = s._temperature_avail
    ∧ (display_debugging clear s)._distance_request_queued = s._distance_request_queued
    ∧ (display_debugging clear s)._temperature_request_queued
        = s._temperature_request_queued := by
  cases clear <;> simp [display_debugging]

end PingSerial

namespace PingSerial

/-! ## Where queued flags come from -/

theorem queued_queued_flags (now available : Nat) (s : PingSerial) :
    ((data_available_queued now available s)._distance_request_queued = true →
        s._distance_request_queued = true)
    ∧ ((data_available_queued now available s)._temperature_request_queued = true →
        s._temperature_request_queued = true)
    ∧ (OPERATION_PENDING s = true → data_available_queued now available s = s) := by
  refine ⟨?_, ?_, fun h => queued_skip now available s (Or.inr h)⟩
  · intro h
    unfold data_available_queued at h
    split at h
    · next hc =>
      have hp := hc.2
      simp only [OPERATION_PENDING, Bool.or_eq_false_iff] at hp
      split at h
      · assumption
      · split at h
        · rw [(request_temperature_flags now _).2.1] at h
          exact h
        · exact h
    · exact h
  · intro h
    unfold data_available_queued at h
    split at h
    · next hc =>
      have hp := hc.2
      simp only [OPERATION_PENDING, Bool.or_eq_false_iff] at hp
      split at h
      · rw [(request_distance_flags now _).2.1] at h
        exact h
      · split at h
        · assumption
        · exact h
    · exact h

theorem exclusive_cases (s : PingSerial) (h : Exclusive s) :
    (s._distance_pending = true → s._temperature_pending = false) := by
  intro hd
  cases ht : s._temperature_pending with
  | false => rfl
  | true => exact absurd ⟨hd, ht⟩ h

theorem rx_queued_flags (now available : Nat) (s : PingSerial) (h : Exclusive s) :
    (data_available_rx now available s)._distance_request_queued = s._distance_request_queued
    ∧ (data_available_rx now available s)._temperature_request_queued
        = s._temperature_request_queued := by
  have hx := exclusive_cases s h
  unfold data_available_rx
  split
  · split
    · next hd =>
      split
      · exact ⟨rfl, rfl⟩
      · split
        · rw [(request_distance_flags now _).2.2.2, (request_distance_flags now _).2.1]
          simp [read_snd, hx hd]
        · unfold data_available_distance
          simp only [read_snd]
          split
          · exact ⟨rfl, rfl⟩
          · split <;> exact ⟨rfl, rfl⟩
    · next hd =>
      split
      · split
        · rw [(request_temperature_flags now _).2.2.2, (request_temperature_flags now _).2.1]
          simp [read_snd, hd]
        · simp only [read_snd]
          exact ⟨trivial, trivial⟩
      · exact ⟨rfl, rfl⟩
  · exact ⟨rfl, rfl⟩

theorem timeout_queued_flags (now : Nat) (s : PingSerial) (h : Exclusive s) :
    (data_available_timeout now s)._distance_request_queued = s._distance_request_queued
    ∧ (data_available_timeout now s)._temperature_request_queued
        = s._temperature_request_queued := by
  have hx := exclusive_cases s h
  unfold data_available_timeout
  split
  · next hc =>
    simp only [read_snd]
    split
    · next hd =>
      rw [(request_distance_flags now _).2.2.2, (request_distance_flags now _).2.1]
      simp [hx hd]
    · next hd =>
      rw [(request_temperature_flags now _).2.2.2, (request_temperature_flags now _).2.1]
      simp [hd]
  · exact ⟨rfl, rfl⟩

theorem poll_queued_flags (now : Nat) (s : PingSerial) (h : Exclusive s) :
    ((data_available now s).2._distance_request_queued = true →
        s._distance_request_queued = true)
    ∧ ((data_available now s).2._temperature_request_queued = true →
        s._temperature_request_queued = true)
    ∧ (OPERATION_PENDING s = true →
        (data_available now s).2._distance_request_queued = s._distance_request_queued
        ∧ (data_available now s).2._temperature_request_queued
            = s._temperature_request_queued) := by
  have e1 := queued_exclusive now (s.serial.available % 256) s h
  have e2 := rx_exclusive now (s.serial.available % 256) _ e1
  have q1 := queued_queued_flags now (s.serial.available % 256) s
  have q2 := rx_queued_flags now (s.serial.available % 256) _ e1
  have q3 := timeout_queued_flags now _ e2
  have hd : (data_available now s).2._distance_request_queued
      = (data_available_queued now (s.serial.available % 256) s)._distance_request_queued :=
    q3.1.trans q2.1
  have ht : (data_available now s).2._temperature_request_queued
      = (data_available_queued now (s.serial.available % 256) s)._temperature_request_queued :=
    q3.2.trans q2.2
  refine ⟨fun hq => q1.1 (hd ▸ hq), fun hq => q1.2.1 (ht ▸ hq), fun hb => ?_⟩
  rw [hd, ht, q1.2.2 hb]
  exact ⟨rfl, rfl⟩

end PingSerial

namespace PingSerial

theorem reachable_exclusive (s : PingSerial) (h : Reachable s) : Exclusive s := by
  obtain ⟨port, lo, hi, calls, rfl⟩ := h
  exact run_exclusive calls _ (new_exclusive port lo hi)

/-- C12, as stated, fails: a temperature request is queued behind a distance
request, the distance answer `[0x01, 0xF4]` is polled at time 50, and in the
state reached the temperature request is still queued while nothing is
pending. -/
theorem queued_while_nothing_pending_reached :
    Reachable (run [.request_distance 0, .request_temperature 1, .receive [0x01, 0xF4],
      .data_available 50] (new ⟨[], []⟩ 0 500))
    ∧ (run [.request_distance 0, .request_temperature 1, .receive [0x01, 0xF4],
      .data_available 50] (new ⟨[], []⟩ 0 500))._temperature_request_queued = true
    ∧ (run [.request_distance 0, .request_temperature 1, .receive [0x01, 0xF4],
      .data_available 50] (new ⟨[], []⟩ 0 500))._distance_pending = false
    ∧ (run [.request_distance 0, .request_temperature 1, .receive [0x01, 0xF4],
      .data_available 50] (new ⟨[], []⟩ 0 500))._temperature_pending = false :=
  ⟨⟨⟨[], []⟩, 0, 500, _, rfl⟩, by decide, by decide, by decide⟩

/-- C12, amended: a newly constructed object has no queued flag; in a reachable
state an event sets a kind's queued flag only if it is a request call of that
kind made while a request (of either kind) is pending; and a poll of a
reachable state in which a request is pending leaves both queued flags as they
are, so a queued flag outlives the request it was queued behind. -/
theorem queued_set_only_by_request_while_pending (port : Port) (lo hi now : Nat)
    (c : Call) (s : PingSerial) (hr : Reachable s) :
    ((new port lo hi)._distance_request_queued = false
      ∧ (new port lo hi)._temperature_request_queued = false)
    ∧ (s._distance_request_queued = false → (c.apply s)._distance_request_queued = true →
        OPERATION_PENDING s = true ∧ ∃ t, c = Call.request_distance t)
    ∧ (s._temperature_request_queued = false →
        (c.apply s)._temperature_request_queued = true →
        OPERATION_PENDING s = true ∧ ∃ t, c = Call.request_temperature t)
    ∧ (OPERATION_PENDING s = true →
        (data_available now s).2._distance_request_queued = s._distance_request_queued
        ∧ (data_available now s).2._temperature_request_queued
            = s._temperature_request_queued) := by
  have hx := reachable_exclusive s hr
  refine ⟨by simp [new, Init, defaults], ?_, ?_, (poll_queued_flags now s hx).2.2⟩
  · intro h0 h1
    cases c with
    | request_distance t =>
      have h2 : (request_distance t s)._distance_request_queued = true := h1
      rw [(request_distance_flags t s).2.2.2, h0] at h2
      exact ⟨by simpa [OPERATION_PENDING] using h2, t, rfl⟩
    | request_temperature t =>
      have h2 : (request_temperature t s)._distance_request_queued = true := h1
      rw [(request_temperature_flags t s).2.1, h0] at h2
      exact Bool.noConfusion h2
    | data_available t =>
      have h2 := (poll_queued_flags t s hx).1 h1
      rw [h0] at h2
      exact Bool.noConfusion h2
    | get_distance =>
      have h2 : (get_distance s).2._distance_request_queued = true := h1
      rw [get_distance_snd] at h2
      rw [h0] at h2
      exact Bool.noConfusion h2
    | get_temperature =>
      have h2 : (get_temperature s).2._distance_request_queued = true := h1
      rw [get_temperature_snd] at h2
      rw [h0] at h2
      exact Bool.noConfusion h2
    | display_debugging clear =>
      have h2 : (display_debugging clear s)._distance_request_queued = true := h1
      rw [(display_debugging_flags clear s).2.2.2.2.1, h0] at h2
      exact Bool.noConfusion h2
    | receive bytes =>
      have h2 : s._distance_request_queued = true := h1
      rw [h0] at h2
      exact Bool.noConfusion h2
  · intro h0 h1
    cases c with
    | request_distance t =>
      have h2 : (request_distance t s)._temperature_request_queued = true := h1
      rw [(request_distance_flags t s).2.1, h0] at h2
      exact Bool.noConfusion h2
    | request_temperature t =>
      have h2 : (request_temperature t s)._temperature_request_queued = true := h1
      rw [(request_temperature_flags t s).2.2.2, h0] at h2
      exact ⟨by simpa [OPERATION_PENDING] using h2, t, rfl⟩
    | data_available t =>
      have h2 := (poll_queued_flags t s hx).2.1 h1
      rw [h0] at h2
      exact Bool.noConfusion h2
    | get_distance =>
      have h2 : (get_distance s).2._temperature_request_queued = true := h1
      rw [get_distance_snd] at h2
      rw [h0] at h2
      exact Bool.noConfusion h2
    | get_temperature =>
      have h2 : (get_temperature s).2._temperature_request_queued = true := h1
      rw [get_temperature_snd] at h2
      rw [h0] at h2
      exact Bool.noConfusion h2
    | display_debugging clear =>
      have h2 : (display_debugging clear s)._temperature_request_queued = true := h1
      rw [(display_debugging_flags clear s).2.2.2.2.2, h0] at h2
      exact Bool.noConfusion h2
    | receive bytes =>
      have h2 : s._temperature_request_queued = true := h1
      rw [h0] at h2
      exact Bool.noConfusion h2

/-- C12, amended, at the reachable state with a pending distance request (sent
at time 0) and the event `request_temperature` at time 1. -/
theorem queued_set_only_by_request_while_pending_witness :
    (Reachable (run [.request_distance 0] (new ⟨[], []⟩ 0 500))
      ∧ (run [.request_distance 0] (new ⟨[], []⟩ 0 500))._temperature_request_queued = false
      ∧ ((Call.request_temperature 1).apply
          (run [.request_distance 0] (new ⟨[], []⟩ 0 500)))._temperature_request_queued = true)
    ∧ OPERATION_PENDING (run [.request_distance 0] (new ⟨[], []⟩ 0 500)) = true :=
  ⟨⟨⟨⟨[], []⟩, 0, 500, _, rfl⟩, by decide, by decide⟩,
    ((queued_set_only_by_request_while_pending ⟨[], []⟩ 0 500 2 (Call.request_temperature 1)
      (run [.request_distance 0] (new ⟨[], []⟩ 0 500)) ⟨⟨[], []⟩, 0, 500, _, rfl⟩).2.2.1
      (by decide) (by decide)).1⟩

end PingSerial

namespace PingSerial

/-! ## Repeated requests -/

/-- C13, as stated, fails: in the reachable state with a distance request
pending and nothing queued, a further `request_distance` is not a no-op, it
sets `_distance_request_queued`. -/
theorem repeated_request_sets_queued_flag :
    Reachable (run [.request_distance 0] (new ⟨[], []⟩ 0 500))
    ∧ (run [.request_distance 0] (new ⟨[], []⟩ 0 500))._distance_pending = true
    ∧ (run [.request_distance 0] (new ⟨[], []⟩ 0 500))._distance_request_queued = false
    ∧ (request_distance 1
        (run [.request_distance 0] (new ⟨[], []⟩ 0 500)))._distance_request_queued = true
    ∧ request_distance 1 (run [.request_distance 0] (new ⟨[], []⟩ 0 500))
        ≠ run [.request_distance 0] (new ⟨[], []⟩ 0 500) :=
  ⟨⟨⟨[], []⟩, 0, 500, _, rfl⟩, by decide, by decide, by decide, by decide⟩

/-- C13, amended: while a request is pending, a request call for a kind that is
already queued (state `s`) changes nothing at all; a request call for a kind
that is not yet queued (state `b`, where the kind may itself be the pending
one) writes no byte and changes only that kind's queued flag, which it sets. -/
theorem repeated_request_absorbed_when_queued (now : Nat) (s b : PingSerial)
    (hs : OPERATION_PENDING s = true) (hdq : s._distance_request_queued = true)
    (htq : s._temperature_request_queued = true) (hb : OPERATION_PENDING b = true) :
    (request_distance now s = s ∧ request_temperature now s = s)
    ∧ (request_distance now b = { b with _distance_request_queued := true }
      ∧ request_temperature now b = { b with _temperature_request_queued := true })
    ∧ ((request_distance now b).serial = b.serial
      ∧ (request_temperature now b).serial = b.serial) := by
  refine ⟨⟨?_, ?_⟩, ⟨request_distance_busy now b hb, request_temperature_busy now b hb⟩, ?_, ?_⟩
  · rw [request_distance_busy now s hs]
    cases s with
    | mk serial a b c d e f g h i j k l m n =>
      simp only at hdq
      subst hdq
      rfl
  · rw [request_temperature_busy now s hs]
    cases s with
    | mk serial a b c d e f g h i j k l m n =>
      simp only at htq
      subst htq
      rfl
  · rw [request_distance_busy now b hb]
  · rw [request_temperature_busy now b hb]

/-- C13, amended, at the state with a distance request pending and both kinds
queued, and at the state with only the distance request pending. -/
theorem repeated_request_absorbed_when_queued_witness :
    (OPERATION_PENDING (run [.request_distance 0, .request_distance 1, .request_temperature 2]
        (new ⟨[], []⟩ 0 500)) = true
      ∧ (run [.request_distance 0, .request_distance 1, .request_temperature 2]
        (new ⟨[], []⟩ 0 500))._distance_request_queued = true
      ∧ (run [.request_distance 0, .request_distance 1, .request_temperature 2]
        (new ⟨[], []⟩ 0 500))._temperature_request_queued = true
      ∧ OPERATION_PENDING (run [.request_distance 0] (new ⟨[], []⟩ 0 500)) = true)
    ∧ request_distance 3 (run [.request_distance 0, .request_distance 1, .request_temperature 2]
        (new ⟨[], []⟩ 0 500))
      = run [.request_distance 0, .request_distance 1, .request_temperature 2]
        (new ⟨[], []⟩ 0 500) :=
  ⟨by decide,
    (repeated_request_absorbed_when_queued 3
      (run [.request_distance 0, .request_distance 1, .request_temperature 2]
        (new ⟨[], []⟩ 0 500))
      (run [.request_distance 0] (new ⟨[], []⟩ 0 500))
      (by decide) (by decide) (by decide) (by decide)).1.1⟩

/-! ## Construction -/

/-- C14: after construction with arguments `(a, b)` the stored bounds are
`min a b` and `max a b`, so the minimum is at most the maximum and the
arguments given in either order build the same object; the timeout is 99 ms
whatever the arguments are.  `Init` stores the same three values in any
object. -/
theorem constructor_normalises_bounds (port : Port) (a b : Nat) (s : PingSerial) :
    ((new port a b)._min_mm_distance = min a b
      ∧ (new port a b)._max_mm_distance = max a b
      ∧ (new port a b)._min_mm_distance ≤ (new port a b)._max_mm_distance
      ∧ (new port a b)._op_timeout_ms = 99)
    ∧ new port a b = new port b a
    ∧ ((Init a b s)._min_mm_distance = min a b
      ∧ (Init a b s)._max_mm_distance = max a b
      ∧ (Init a b s)._op_timeout_ms = 99) := by
  refine ⟨⟨rfl, ?_, ?_, rfl⟩, ?_, rfl, ?_, rfl⟩
  · show max b a = max a b
    exact Nat.max_comm b a
  · show min a b ≤ max b a
    omega
  · simp only [new, Init]
    rw [Nat.min_comm a b, Nat.max_comm b a]
  · show max b a = max a b
    exact Nat.max_comm b a

end PingSerial

namespace PingSerial

/-! ## No partial answers -/

end PingSerial

namespace PingSerial

/-! ## The timeout counter -/

theorem request_distance_count (now : Nat) (s : PingSerial) :
    (request_distance now s)._timeout_count = s._timeout_count := by
  unfold request_distance
  split <;> rfl

theorem request_temperature_count (now : Nat) (s : PingSerial) :
    (request_temperature now s)._timeout_count = s._timeout_count := by
  unfold request_temperature
  split <;> rfl

theorem queued_count (now available : Nat) (s : PingSerial) :
    (data_available_queued now available s)._timeout_count = s._timeout_count := by
  unfold data_available_queued
  split
  · split
    · exact request_distance_count now _
    · split
      · exact request_temperature_count now _
      · rfl
  · rfl

theorem rx_count (now available : Nat) (s : PingSerial) :
    (data_available_rx now available s)._timeout_count = s._timeout_count := by
  unfold data_available_rx
  split
  · split
    · split
      · rfl
      · split
        · rw [request_distance_count]
          simp only [read_snd]
        · unfold data_available_distance
          simp only [read_snd]
          split
          · rfl
          · split <;> rfl
    · split
      · split
        · rw [request_temperature_count]
          simp only [read_snd]
        · simp only [read_snd]
      · rfl
  · rfl

theorem timeout_count (now : Nat) (s : PingSerial) :
    (data_available_timeout now s)._timeout_count =
      (if OPERATION_PENDING s = true ∧
          millis now > (s._op_started + s._op_timeout_ms) % 4294967296 then
        max ((s._timeout_count + 1) % 65536) 1
      else s._timeout_count) := by
  unfold data_available_timeout
  split
  · simp only [read_snd]
    split
    · rw [request_distance_count]
    · rw [request_temperature_count]
  · rfl

theorem poll_count (now : Nat) (s : PingSerial) :
    (data_available now s).2._timeout_count =
      (if data_available_timed_out now s = true then
        max ((s._timeout_count + 1) % 65536) 1
      else s._timeout_count) := by
  unfold data_available data_available_timed_out
  simp only [timeout_count, rx_count, queued_count, decide_eq_true_eq]

end PingSerial

namespace PingSerial

/-- C16: for a 16-bit timeout counter `c`, a poll that detects a timeout leaves
the counter at `c + 1` when `c < 65535` and at 1 when `c = 65535`, so never at
0; a poll that detects none leaves it at `c`.  No event takes a non-zero
counter to 0 except `display_debugging` called with `clear = true`, which
always does. -/
theorem timeout_counter_floor_one (now : Nat) (s : PingSerial) (c : Call)
    (hc : s._timeout_count < 65536) :
    (data_available_timed_out now s = true →
      (s._timeout_count < 65535 →
        (data_available now s).2._timeout_count = s._timeout_count + 1)
      ∧ (s._timeout_count = 65535 → (data_available now s).2._timeout_count = 1)
      ∧ (data_available now s).2._timeout_count ≠ 0)
    ∧ (data_available_timed_out now s = false →
        (data_available now s).2._timeout_count = s._timeout_count)
    ∧ (s._timeout_count ≠ 0 → (c.apply s)._timeout_count = 0 →
        c = Call.display_debugging true)
    ∧ (display_debugging true s)._timeout_count = 0 := by
  refine ⟨fun ht => ?_, fun ht => ?_, fun hne h0 => ?_, rfl⟩
  · have h := poll_count now s
    rw [if_pos ht, timeout_count_step _ hc] at h
    refine ⟨fun hlt => ?_, fun heq => ?_, ?_⟩
    · rw [h, if_neg (by omega)]
    · rw [h, if_pos heq]
    · rw [h]
      split <;> omega
  · have h := poll_count now s
    rw [if_neg (by simp [ht])] at h
    exact h
  · cases c with
    | request_distance t =>
      have h1 : (request_distance t s)._timeout_count = 0 := h0
      rw [request_distance_count] at h1
      exact absurd h1 hne
    | request_temperature t =>
      have h1 : (request_temperature t s)._timeout_count = 0 := h0
      rw [request_temperature_count] at h1
      exact absurd h1 hne
    | data_available t =>
      have h1 : (data_available t s).2._timeout_count = 0 := h0
      rw [poll_count] at h1
      split at h1
      · omega
      · exact absurd h1 hne
    | get_distance =>
      have h1 : (get_distance s).2._timeout_count = 0 := h0
      rw [get_distance_snd] at h1
      exact absurd h1 hne
    | get_temperature =>
      have h1 : (get_temperature s).2._timeout_count = 0 := h0
      rw [get_temperature_snd] at h1
      exact absurd h1 hne
    | display_debugging clear =>
      cases clear with
      | true => rfl
      | false => exact absurd h0 hne
    | receive bytes => exact absurd h0 hne

/-- C16 at the state with a temperature request sent at time 0, no byte
received and the poll at time 100: the timeout is detected and the counter
goes from 0 to 1. -/
theorem timeout_counter_floor_one_witness :
    ((request_temperature 0 (new ⟨[], []⟩ 0 500))._timeout_count < 65536
      ∧ data_available_timed_out 100 (request_temperature 0 (new ⟨[], []⟩ 0 500)) = true
      ∧ (request_temperature 0 (new ⟨[], []⟩ 0 500))._timeout_count < 65535)
    ∧ (data_available 100 (request_temperature 0 (new ⟨[], []⟩ 0 500))).2._timeout_count
        = (request_temperature 0 (new ⟨[], []⟩ 0 500))._timeout_count + 1
    ∧ (data_available 100
        { request_temperature 0 (new ⟨[], []⟩ 0 500) with _timeout_count := 65535 }).2._timeout_count
        = 1 :=
  ⟨by decide,
    ((timeout_counter_floor_one 100 (request_temperature 0 (new ⟨[], []⟩ 0 500))
      (Call.data_available 100) (by decide)).1 (by decide)).1 (by decide),
    ((timeout_counter_floor_one 100
      { request_temperature 0 (new ⟨[], []⟩ 0 500) with _timeout_count := 65535 }
      (Call.data_available 100) (by decide)).1 (by decide)).2.1 (by decide)⟩

/-! ## The longest operation -/

/-- While the elapsed time `(millis now - _op_started) mod 2^32` and the stored
maximum both fit 16 bits, a valid distance answer stores the larger of the
two in `_max_op_duration_ms`. -/
theorem max_duration_within_16_bits (now : Nat) (s : PingSerial)
    (he : (((millis now : Int) - (s._op_started : Int)) % 4294967296).toNat < 65536)
    (hm : s._max_op_duration_ms < 65536) :
    (data_available_distance now s)._max_op_duration_ms
      = max s._max_op_duration_ms
          (((millis now : Int) - (s._op_started : Int)) % 4294967296).toNat := by
  have h : (data_available_distance now s)._max_op_duration_ms
      = (max (((millis now : Int) - (s._op_started : Int)) % 4294967296).toNat
          s._max_op_duration_ms) % 65536 := by
    unfold data_available_distance
    simp only [read_snd]
    split
    · rfl
    · split <;> rfl
  rw [h, Nat.mod_eq_of_lt (by omega), Nat.max_comm]

/-- C17 at a failing input: the stored maximum is 50 ms (a first distance
answer polled 50 ms after its request), a second distance request is sent at
time 100, its answer `[0x01, 0xF4]` is received, and the poll comes at time
65636, that is 65536 ms after the request.  The answer is valid and stored,
the maximum of 65536 and 50 is narrowed to 16 bits, and `_max_op_duration_ms`
drops from 50 to 0. -/
theorem max_duration_drops_after_long_operation :
    (run [.request_distance 0, .receive [0x01, 0xF4], .data_available 50, .get_distance,
        .request_distance 100, .receive [0x01, 0xF4]]
        (new ⟨[], []⟩ 0 500))._max_op_duration_ms = 50
    ∧ (run [.request_distance 0, .receive [0x01, 0xF4], .data_available 50, .get_distance,
        .request_distance 100, .receive [0x01, 0xF4]]
        (new ⟨[], []⟩ 0 500))._op_started = 100
    ∧ (run [.request_distance 0, .receive [0x01, 0xF4], .data_available 50, .get_distance,
        .request_distance 100, .receive [0x01, 0xF4]]
        (new ⟨[], []⟩ 0 500))._distance_pending = true
    ∧ millis 65636 - 100 = 65536
    ∧ (data_available 65636
        (run [.request_distance 0, .receive [0x01, 0xF4], .data_available 50, .get_distance,
          .request_distance 100, .receive [0x01, 0xF4]]
          (new ⟨[], []⟩ 0 500))).2._distance_avail = true
    ∧ (data_available 65636
        (run [.request_distance 0, .receive [0x01, 0xF4], .data_available 50, .get_distance,
          .request_distance 100, .receive [0x01, 0xF4]]
          (new ⟨[], []⟩ 0 500))).2._distance = 500
    ∧ (data_available 65636
        (run [.request_distance 0, .receive [0x01, 0xF4], .data_available 50, .get_distance,
          .request_distance 100, .receive [0x01, 0xF4]]
          (new ⟨[], []⟩ 0 500))).2._max_op_duration_ms = 0 := by
  decide

end PingSerial

namespace PingSerial

/-! ## The range check of `Init` -/

/-- In the constructor `Init` runs on the member initialisers, where
`_min_mm_distance` is 0: the diagnostic branch is taken exactly when the
maximum passed is 0, whatever minimum is passed. -/
theorem init_screwy_iff_max_zero (port : Port) (max_mm_distance : Nat) :
    Init_screwy (defaults port) max_mm_distance = true ↔ max_mm_distance = 0 := by
  simp [Init_screwy, defaults]

/-- C18 at a failing input: the constructor is called with the reversed pair
(min 500, max 100).  The bounds are swapped (stored 100 and 500), but the
condition that guards the "Screwy min/max distance passed" diagnostic reads
the member `_min_mm_distance`, still 0, and not the argument 500: it is false
and the branch is not taken.  The same happens for an equal pair such as
(400, 400): in the constructor the branch is taken exactly when the maximum
passed is 0. -/
theorem reversed_range_not_reported :
    500 ≥ 100
    ∧ Init_screwy (defaults ⟨[], []⟩) 100 = false
    ∧ (new ⟨[], []⟩ 500 100)._min_mm_distance = 100
    ∧ (new ⟨[], []⟩ 500 100)._max_mm_distance = 500
    ∧ Init_screwy (defaults ⟨[], []⟩) 400 = false
    ∧ (∀ (port : Port) (hi : Nat), Init_screwy (defaults port) hi = true ↔ hi = 0) := by
  refine ⟨by decide, by decide, by decide, by decide, by decide, ?_⟩
  intro port hi
  exact init_screwy_iff_max_zero port hi

/-! ## Bytes nobody asked for -/

/-- C20: there are a reachable state and a clock reading for which the 32-bit
sum `_op_started + 99` wraps and the poll declares a timeout (counter
incremented, opcode written again) although fewer than 99 ms have passed since
the request: a distance request sent at reading 4294967200 and polled 10 ms
later.  There the test of the code, `millis() > _op_started + _op_timeout_ms`
in 32-bit arithmetic, holds while the 32-bit elapsed time is not above 99. -/
theorem spurious_timeout_near_clock_wrap :
    ∃ (s : PingSerial) (now : Nat),
      Reachable s
      ∧ s._distance_pending = true
      ∧ s._op_timeout_ms = 99
      ∧ 4294967296 ≤ s._op_started + 99
      ∧ s._op_started ≤ millis now
      ∧ millis now - s._op_started < 99
      ∧ data_available_timed_out now s = true
      ∧ (data_available now s).2._timeout_count = s._timeout_count + 1
      ∧ (data_available now s).2.serial.tx = s.serial.tx ++ [0x55]
      ∧ millis now > (s._op_started + s._op_timeout_ms) % 4294967296
      ∧ ¬ ((((millis now : Int) - (s._op_started : Int)) % 4294967296).toNat > 99) :=
  ⟨run [.request_distance 4294967200] (new ⟨[], []⟩ 0 500), 4294967210,
    ⟨⟨[], []⟩, 0, 500, _, rfl⟩, by decide, by decide, by decide, by decide, by decide,
    by decide, by decide, by decide, by decide, by decide⟩

end PingSerial
